import Mathlib

/-!
# Verification of the Value-Investing valuation engine

A shallow embedding, over `ℝ`, of the pure numeric core of the
Value-Investing-Agent repository:

* `src/analysis/ratios.ts`            (CAGR, financial ratios)
* `src/analysis/dcf.ts`               (two-stage DCF model)
* `src/analysis/moat-scorer.ts`       (five-dimension moat scoring)
* `src/analysis/margin-of-safety.ts`  (margin-of-safety combiner)

Modelling conventions:

* JavaScript `number` is modelled as `ℝ` (idealised, no NaN/rounding);
  `Math.pow` with a fractional exponent is `Real.rpow`, `Math.sqrt` is
  `Real.sqrt`.
* TypeScript `x | null` and optional record fields become `Option ℝ`.
* Statement records keep exactly the fields the valuation engine reads;
  presentation-only fields (fiscal year labels, report dates, …) are omitted.
* JavaScript truthiness guards such as `v || 0`, `v || 1`,
  `employees && employees > 0` are translated case by case and noted at the
  corresponding definition.
* `new Date()` inside `analyzeMoat` is modelled by an explicit `now`
  parameter (see `analyzeMoat`).
* Human-readable `evidence` / `recommendation` / `factors` strings are not
  modelled; all numeric and enumerated fields are.
-/

noncomputable section

/-- Income-statement record (`providers/types.ts`, `IncomeStatement`);
only the fields read by the analysis modules are kept. -/
structure IncomeStatement where
  revenue : ℝ
  grossProfit : ℝ
  operatingIncome : ℝ
  interestExpense : Option ℝ
  netIncome : ℝ
  eps : ℝ
  ebitda : ℝ
  sharesOutstanding : ℝ

/-- Balance-sheet record (`providers/types.ts`, `BalanceSheet`). -/
structure BalanceSheet where
  totalAssets : ℝ
  currentAssets : ℝ
  cash : ℝ
  inventory : Option ℝ
  currentLiabilities : ℝ
  totalDebt : ℝ
  totalEquity : ℝ

/-- Cash-flow record (`providers/types.ts`, `CashFlowStatement`). -/
structure CashFlowStatement where
  depreciation : ℝ
  operatingCashFlow : ℝ
  capitalExpenditure : ℝ
  freeCashFlow : ℝ

/-- Combined statement series, newest year first (`Financials`). -/
structure Financials where
  incomeStatements : List IncomeStatement
  balanceSheets : List BalanceSheet
  cashFlowStatements : List CashFlowStatement

/-- Market quote (`StockQuote`); fields read by the engine. -/
structure StockQuote where
  ticker : String
  name : String
  price : ℝ
  marketCap : ℝ
  pe : Option ℝ
  pb : Option ℝ
  ps : Option ℝ

/-- Company profile (`CompanyProfile`); the moat scorer reads `employees`. -/
structure CompanyProfile where
  ticker : String
  name : String
  employees : Option ℝ

/-! ## Margin of safety (`src/analysis/margin-of-safety.ts`) -/

/-- Valuation status, the `'undervalued' | 'fair' | 'overvalued'` union. -/
inductive ValStatus where
  | undervalued
  | fair
  | overvalued
deriving DecidableEq

/-- Risk level, the `'low' | 'medium' | 'high'` union. -/
inductive RiskLevel where
  | low
  | medium
  | high
deriving DecidableEq

/-- `VALUE_INVESTING_THRESHOLDS.marginOfSafety` from `config/defaults.ts`:
minimum 25%, good 35%, excellent 50%. -/
structure MarginThresholds where
  minimum : ℝ
  good : ℝ
  excellent : ℝ

/-- The concrete threshold record from `config/defaults.ts`. -/
def marginOfSafetyThresholds : MarginThresholds :=
  { minimum := 0.25, good := 0.35, excellent := 0.50 }

/-- Result record of `calculateMarginOfSafety`
(recommendation string omitted). -/
structure MarginOfSafetyResult where
  marginOfSafety : ℝ
  currentPrice : ℝ
  intrinsicValue : ℝ
  status : ValStatus
  riskLevel : RiskLevel

/-- `calculateMarginOfSafety` (margin-of-safety.ts lines 45–123).
Margin = (intrinsic − price) / intrinsic; band thresholds come from
`marginOfSafetyThresholds`; invalid inputs give the worst-case default. -/
def calculateMarginOfSafety (currentPrice intrinsicValue : ℝ) :
    MarginOfSafetyResult :=
  if intrinsicValue ≤ 0 ∨ currentPrice ≤ 0 then
    { marginOfSafety := 0, currentPrice := currentPrice
      intrinsicValue := intrinsicValue
      status := ValStatus.overvalued, riskLevel := RiskLevel.high }
  else
    let marginOfSafety := (intrinsicValue - currentPrice) / intrinsicValue
    let thresholds := marginOfSafetyThresholds
    if marginOfSafety ≥ thresholds.excellent then
      { marginOfSafety := marginOfSafety, currentPrice := currentPrice
        intrinsicValue := intrinsicValue
        status := ValStatus.undervalued, riskLevel := RiskLevel.low }
    else if marginOfSafety ≥ thresholds.good then
      { marginOfSafety := marginOfSafety, currentPrice := currentPrice
        intrinsicValue := intrinsicValue
        status := ValStatus.undervalued, riskLevel := RiskLevel.low }
    else if marginOfSafety ≥ thresholds.minimum then
      { marginOfSafety := marginOfSafety, currentPrice := currentPrice
        intrinsicValue := intrinsicValue
        status := ValStatus.undervalued, riskLevel := RiskLevel.medium }
    else if marginOfSafety ≥ 0 then
      { marginOfSafety := marginOfSafety, currentPrice := currentPrice
        intrinsicValue := intrinsicValue
        status := ValStatus.fair, riskLevel := RiskLevel.medium }
    else if marginOfSafety ≥ -0.25 then
      { marginOfSafety := marginOfSafety, currentPrice := currentPrice
        intrinsicValue := intrinsicValue
        status := ValStatus.overvalued, riskLevel := RiskLevel.high }
    else
      { marginOfSafety := marginOfSafety, currentPrice := currentPrice
        intrinsicValue := intrinsicValue
        status := ValStatus.overvalued, riskLevel := RiskLevel.high }

/-- Minimum of a list of reals, `Math.min(...validValues)` over a nonempty
list (`0` for the empty list, which the source never hits). -/
def listMin : List ℝ → ℝ
  | [] => 0
  | x :: xs => xs.foldl min x

/-- The surviving valuations: entries that are non-null and `> 0`
(margin-of-safety.ts lines 150–157). -/
def validValuations (valuations : List (String × Option ℝ)) : List ℝ :=
  valuations.filterMap fun p =>
    match p.2 with
    | some v => if v > 0 then some v else none
    | none => none

/-- Result record of `calculateCombinedMarginOfSafety`
(recommendation string omitted).  Note that the source returns the
conservative `min(min, mean)` under the field name `averageIntrinsicValue`
(margin-of-safety.ts line 188). -/
structure CombinedMarginResult where
  individual : List (String × Option ℝ)
  averageIntrinsicValue : ℝ
  combinedMarginOfSafety : ℝ
  status : ValStatus

/-- `calculateCombinedMarginOfSafety` (margin-of-safety.ts lines 136–193).
The `Record<string, number | null>` argument is modelled as an association
list in insertion order. -/
def calculateCombinedMarginOfSafety (currentPrice : ℝ)
    (valuations : List (String × Option ℝ)) : CombinedMarginResult :=
  let individual := valuations.map fun p =>
    (p.1,
      match p.2 with
      | some v => if v > 0 then some ((v - currentPrice) / v) else none
      | none => none)
  let validValues := validValuations valuations
  if validValues = [] then
    { individual := individual, averageIntrinsicValue := 0
      combinedMarginOfSafety := -1, status := ValStatus.overvalued }
  else
    let conservativeValue := listMin validValues
    let averageValue := validValues.sum / validValues.length
    let intrinsicValue := min conservativeValue averageValue
    let combinedMarginOfSafety := (intrinsicValue - currentPrice) / intrinsicValue
    let result := calculateMarginOfSafety currentPrice intrinsicValue
    { individual := individual, averageIntrinsicValue := intrinsicValue
      combinedMarginOfSafety := combinedMarginOfSafety, status := result.status }

/-! ## Financial ratios (`src/analysis/ratios.ts`) -/

/-- `calculateCAGR` (ratios.ts lines 19–30):
`(end/start)^(1/years) − 1`, or `null` when `start ≤ 0`, `end ≤ 0` or
`years ≤ 0`.  The `years` argument is a natural number at every call site. -/
def calculateCAGR (startValue endValue : ℝ) (years : ℕ) : Option ℝ :=
  if startValue ≤ 0 ∨ endValue ≤ 0 ∨ years = 0 then none
  else some ((endValue / startValue) ^ ((1 : ℝ) / (years : ℝ)) - 1)

/-- The `FinancialRatios` record (`types/index.ts`), as produced by
`calculateFinancialRatios`. -/
structure FinancialRatios where
  pe : Option ℝ
  pb : Option ℝ
  ps : Option ℝ
  peg : Option ℝ
  evToEbitda : Option ℝ
  priceToFcf : Option ℝ
  grossMargin : ℝ
  operatingMargin : ℝ
  netMargin : ℝ
  roe : ℝ
  roa : ℝ
  roic : Option ℝ
  currentRatio : ℝ
  quickRatio : ℝ
  debtToEquity : ℝ
  debtToAssets : ℝ
  interestCoverage : Option ℝ
  netDebtToEbitda : Option ℝ
  fcfYield : Option ℝ
  cashConversion : Option ℝ
  capexToDepreciation : Option ℝ
  revenueGrowth5Y : Option ℝ
  epsGrowth5Y : Option ℝ
  fcfGrowth5Y : Option ℝ
  dividendGrowth5Y : Option ℝ

/-- `getDefaultRatios` (ratios.ts lines 202–230): the all-zero/null record
returned when the most recent year's statements are missing. -/
def getDefaultRatios : FinancialRatios :=
  { pe := none, pb := none, ps := none, peg := none, evToEbitda := none
    priceToFcf := none, grossMargin := 0, operatingMargin := 0, netMargin := 0
    roe := 0, roa := 0, roic := none, currentRatio := 0, quickRatio := 0
    debtToEquity := 0, debtToAssets := 0, interestCoverage := none
    netDebtToEbitda := none, fcfYield := none, cashConversion := none
    capexToDepreciation := none, revenueGrowth5Y := none, epsGrowth5Y := none
    fcfGrowth5Y := none, dividendGrowth5Y := none }

/-- `calculateFinancialRatios` (ratios.ts lines 39–197).  The optional
`quote?` parameter is `Option StockQuote`.  JavaScript truthiness notes:
* `income.interestExpense && income.interestExpense > 0` — the guard is
  equivalent to "present and `> 0`";
* `quote?.marketCap && income.ebitda > 0` (and the `priceToFcf` guard) —
  `marketCap` must be present and nonzero;
* `pe && epsGrowth5Y && epsGrowth5Y > 0` — `pe` must be nonzero and the
  growth present and `> 0`;
* `incomeStatements[years]?.revenue || 0` — the index `years` is always in
  range here, and `|| 0` maps `0` to `0`, so it is the plain field. -/
def calculateFinancialRatios (financials : Financials)
    (quote : Option StockQuote) : FinancialRatios :=
  match financials.incomeStatements.head?, financials.balanceSheets.head?,
      financials.cashFlowStatements.head? with
  | some income, some balance, some cashFlow =>
    let grossMargin := if income.revenue > 0
      then income.grossProfit / income.revenue else 0
    let operatingMargin := if income.revenue > 0
      then income.operatingIncome / income.revenue else 0
    let netMargin := if income.revenue > 0
      then income.netIncome / income.revenue else 0
    let roe := if balance.totalEquity > 0
      then income.netIncome / balance.totalEquity else 0
    let roa := if balance.totalAssets > 0
      then income.netIncome / balance.totalAssets else 0
    let estimatedTaxRate :=
      if income.netIncome > 0 ∧ income.operatingIncome > 0
      then 1 - income.netIncome / income.operatingIncome else 0.25
    let nopat := income.operatingIncome * (1 - max 0 (min estimatedTaxRate 0.5))
    let investedCapital := balance.totalEquity + balance.totalDebt - balance.cash
    let roic := if investedCapital > 0 then some (nopat / investedCapital) else none
    let currentRatio := if balance.currentLiabilities > 0
      then balance.currentAssets / balance.currentLiabilities else 0
    let inventory := balance.inventory.getD 0
    let quickRatio := if balance.currentLiabilities > 0
      then (balance.currentAssets - inventory) / balance.currentLiabilities else 0
    let debtToEquity := if balance.totalEquity > 0
      then balance.totalDebt / balance.totalEquity else 0
    let debtToAssets := if balance.totalAssets > 0
      then balance.totalDebt / balance.totalAssets else 0
    let interestCoverage :=
      match income.interestExpense with
      | some ie => if ie > 0 then some (income.operatingIncome / ie) else none
      | none => none
    let netDebt := balance.totalDebt - balance.cash
    let netDebtToEbitda := if income.ebitda > 0
      then some (netDebt / income.ebitda) else none
    let fcfYield :=
      match quote with
      | some q => if q.marketCap > 0 then some (cashFlow.freeCashFlow / q.marketCap)
                  else none
      | none => none
    let cashConversion := if income.netIncome > 0
      then some (cashFlow.freeCashFlow / income.netIncome) else none
    let capexToDepreciation := if cashFlow.depreciation > 0
      then some (cashFlow.capitalExpenditure / cashFlow.depreciation) else none
    let years := min (financials.incomeStatements.length - 1) 5
    let revenueGrowth5Y :=
      if years ≠ 0 then
        calculateCAGR
          (((financials.incomeStatements.get? years).map
              IncomeStatement.revenue).getD 0)
          income.revenue years
      else none
    let epsGrowth5Y :=
      if years ≠ 0 then
        calculateCAGR
          (max (((financials.incomeStatements.get? years).map
              IncomeStatement.eps).getD 0) 0.01)
          (max income.eps 0.01) years
      else none
    let fcfYears := min (financials.cashFlowStatements.length - 1) 5
    let fcfGrowth5Y :=
      if fcfYears ≠ 0 then
        calculateCAGR
          (max (((financials.cashFlowStatements.get? fcfYears).map
              CashFlowStatement.freeCashFlow).getD 0) 1)
          (max cashFlow.freeCashFlow 1) fcfYears
      else none
    let pe := match quote with | some q => q.pe | none => none
    let pb := match quote with | some q => q.pb | none => none
    let ps := match quote with | some q => q.ps | none => none
    let peg :=
      match pe, epsGrowth5Y with
      | some p, some eg => if p ≠ 0 ∧ eg > 0 then some (p / (eg * 100)) else none
      | _, _ => none
    let evToEbitda :=
      match quote with
      | some q => if q.marketCap ≠ 0 ∧ income.ebitda > 0
                  then some ((q.marketCap + netDebt) / income.ebitda) else none
      | none => none
    let priceToFcf :=
      match quote with
      | some q => if q.marketCap ≠ 0 ∧ cashFlow.freeCashFlow > 0
                  then some (q.marketCap / cashFlow.freeCashFlow) else none
      | none => none
    { pe := pe, pb := pb, ps := ps, peg := peg, evToEbitda := evToEbitda
      priceToFcf := priceToFcf, grossMargin := grossMargin
      operatingMargin := operatingMargin, netMargin := netMargin
      roe := roe, roa := roa, roic := roic, currentRatio := currentRatio
      quickRatio := quickRatio, debtToEquity := debtToEquity
      debtToAssets := debtToAssets, interestCoverage := interestCoverage
      netDebtToEbitda := netDebtToEbitda, fcfYield := fcfYield
      cashConversion := cashConversion
      capexToDepreciation := capexToDepreciation
      revenueGrowth5Y := revenueGrowth5Y, epsGrowth5Y := epsGrowth5Y
      fcfGrowth5Y := fcfGrowth5Y, dividendGrowth5Y := none }
  | _, _, _ => getDefaultRatios

/-! ## Moat scorer (`src/analysis/moat-scorer.ts`) -/

/-- `calculateStability` (moat-scorer.ts lines 454–468): `1` for fewer than
two data points, `0` when the mean is zero, otherwise
`clamp(1 − stdDev/|mean|)` to `[0, 1]`. -/
def calculateStability (values : List ℝ) : ℝ :=
  if values.length < 2 then 1
  else
    let mean := values.sum / values.length
    if mean = 0 then 0
    else
      let variance := (values.map fun v => ((v - mean) ^ 2 : ℝ)).sum / values.length
      let stdDev := Real.sqrt variance
      let cv := stdDev / |mean|
      max 0 (min 1 (1 - cv))

/-- Moat rating, the `'none' | 'narrow' | 'wide'` union. -/
inductive MoatRating where
  | none
  | narrow
  | wide
deriving DecidableEq

/-- Durability assessment, the `'weak' | 'moderate' | 'strong'` union. -/
inductive DurabilityLevel where
  | weak
  | moderate
  | strong
deriving DecidableEq

/-- Brand-power dimension: score plus its `metrics`
(evidence strings omitted). -/
structure BrandPowerResult where
  score : ℝ
  grossMargin : ℝ
  grossMarginStability : ℝ

/-- Cost-advantage dimension (metric `operatingMarginVsIndustry` is the
constant `null` in the source and is omitted). -/
structure CostAdvantageResult where
  score : ℝ
  operatingMargin : ℝ

/-- Network-effect dimension (metric `userGrowth` is constantly `null`). -/
structure NetworkEffectResult where
  score : ℝ
  revenueGrowth : ℝ

/-- Switching-costs dimension (metric `customerRetention` is constantly
`null`). -/
structure SwitchingCostsResult where
  score : ℝ
  revenueStability : ℝ

/-- Scale-economies dimension. -/
structure ScaleEconomiesResult where
  score : ℝ
  marketCap : ℝ
  revenuePerEmployee : Option ℝ

/-- Durability result (factors strings omitted). -/
structure DurabilityResult where
  score : ℝ
  assessment : DurabilityLevel

/-- `analyzeBrandPower` (moat-scorer.ts lines 91–139): base score 1, plus
2/1.5/0.5 for gross margin ≥ 60%/40%/25%, plus 1/0.5 for margin stability
≥ 0.9/0.7, capped at 5. -/
def analyzeBrandPower (financials : Financials) (ratios : FinancialRatios) :
    BrandPowerResult :=
  let grossMargin := ratios.grossMargin
  let marginPart :=
    if grossMargin ≥ 0.60 then (2 : ℝ)
    else if grossMargin ≥ 0.40 then 1.5
    else if grossMargin ≥ 0.25 then 0.5
    else 0
  let grossMargins := financials.incomeStatements.map fun stmt =>
    if stmt.revenue > 0 then stmt.grossProfit / stmt.revenue else 0
  let marginStability := calculateStability grossMargins
  let stabilityPart :=
    if marginStability ≥ 0.9 then (1 : ℝ)
    else if marginStability ≥ 0.7 then 0.5
    else 0
  { score := min 5 (1 + marginPart + stabilityPart)
    grossMargin := grossMargin, grossMarginStability := marginStability }

/-- `analyzeCostAdvantage` (moat-scorer.ts lines 149–200).  The trend
denominator `Math.abs(opMargins[len−1] || 1)` maps a zero last margin to 1
before taking the absolute value. -/
def analyzeCostAdvantage (financials : Financials)
    (ratios : FinancialRatios) : CostAdvantageResult :=
  let opMargin := ratios.operatingMargin
  let marginPart :=
    if opMargin ≥ 0.30 then (2 : ℝ)
    else if opMargin ≥ 0.20 then 1.5
    else if opMargin ≥ 0.10 then 0.5
    else 0
  let opMargins := financials.incomeStatements.map fun stmt =>
    if stmt.revenue > 0 then stmt.operatingIncome / stmt.revenue else 0
  let trendPart :=
    if 3 ≤ opMargins.length then
      let lastMargin := (opMargins.getLast?).getD 0
      let trend := ((opMargins.head?).getD 0 - lastMargin) /
        |if lastMargin = 0 then 1 else lastMargin|
      if trend > 0.1 then (1 : ℝ)
      else if trend > 0 then 0.5
      else if trend < -0.1 then -0.5
      else 0
    else 0
  { score := min 5 (max 1 (1 + marginPart + trendPart))
    operatingMargin := opMargin }

/-- `analyzeNetworkEffect` (moat-scorer.ts lines 210–259).  The metric field
`revenueGrowth` is `revenueGrowth || 0`, i.e. the growth with `null` mapped
to `0`. -/
def analyzeNetworkEffect (financials : Financials)
    (ratios : FinancialRatios) : NetworkEffectResult :=
  let revenueGrowth := ratios.revenueGrowth5Y
  let growthPart :=
    match revenueGrowth with
    | some rg =>
        if rg ≥ 0.20 then (2 : ℝ)
        else if rg ≥ 0.10 then 1
        else if rg ≥ 0.05 then 0.5
        else 0
    | none => 0
  let revenues := financials.incomeStatements.map IncomeStatement.revenue
  let netMargins := financials.incomeStatements.map fun stmt =>
    if stmt.revenue > 0 then stmt.netIncome / stmt.revenue else 0
  let revFirst : ℝ := (revenues.head?).getD 0
  let revLast : ℝ := (revenues.getLast?).getD 0
  let marginFirst : ℝ := (netMargins.head?).getD 0
  let marginLast : ℝ := (netMargins.getLast?).getD 0
  let scalePart :=
    if 3 ≤ revenues.length ∧ revLast < revFirst ∧ marginLast < marginFirst
    then (1 : ℝ) else 0
  { score := min 5 (1 + growthPart + scalePart)
    revenueGrowth := revenueGrowth.getD 0 }

/-- `analyzeSwitchingCosts` (moat-scorer.ts lines 269–315).
`revenues.slice(0,-1).every((rev,i) => rev >= revenues[i+1])` says every
adjacent pair (newest first) is non-increasing, i.e. `List.Chain' (· ≥ ·)`. -/
def analyzeSwitchingCosts (financials : Financials)
    (ratios : FinancialRatios) : SwitchingCostsResult :=
  let revenues := financials.incomeStatements.map IncomeStatement.revenue
  let revenueStability := calculateStability revenues
  let stabilityPart :=
    if revenueStability ≥ 0.95 then (2 : ℝ)
    else if revenueStability ≥ 0.85 then 1
    else if revenueStability ≥ 0.70 then 0.5
    else 0
  let growthPart :=
    if List.Chain' (· ≥ ·) revenues ∧ 3 ≤ revenues.length then (1 : ℝ) else 0
  let marginPart := if ratios.grossMargin ≥ 0.50 then (0.5 : ℝ) else 0
  { score := min 5 (1 + stabilityPart + growthPart + marginPart)
    revenueStability := revenueStability }

/-- `analyzeScaleEconomies` (moat-scorer.ts lines 325–377).  The guard
`employees && employees > 0` is "present and `> 0`". -/
def analyzeScaleEconomies (financials : Financials) (quote : StockQuote)
    (profile : CompanyProfile) : ScaleEconomiesResult :=
  let marketCap := quote.marketCap
  let capPart :=
    if marketCap ≥ 200e9 then (2 : ℝ)
    else if marketCap ≥ 50e9 then 1.5
    else if marketCap ≥ 10e9 then 0.5
    else 0
  let latestRevenue :=
    ((financials.incomeStatements.head?).map IncomeStatement.revenue).getD 0
  let revenuePerEmployee : Option ℝ :=
    match profile.employees with
    | some e => if e > 0 then some (latestRevenue / e) else none
    | none => none
  let employeePart :=
    match revenuePerEmployee with
    | some rpe =>
        if rpe ≥ 1000000 then (1.5 : ℝ)
        else if rpe ≥ 500000 then 0.5
        else 0
    | none => 0
  { score := min 5 (1 + capPart + employeePart)
    marketCap := marketCap, revenuePerEmployee := revenuePerEmployee }

/-- `analyzeDurability` (moat-scorer.ts lines 387–448).  The ROE loop runs
over indices below both list lengths (`List.zipWith`); `equity || 1` maps a
zero equity to 1.  When `roeValues` is empty, `avgRoe` is `0/0 = NaN` in
JavaScript, so both guarded comparisons fail and the `−0.5` branch is taken;
the `roeValues ≠ []` conjuncts reproduce that. -/
def analyzeDurability (financials : Financials)
    (overallScore : ℝ) : DurabilityResult :=
  let roeValues := List.zipWith
    (fun (inc : IncomeStatement) (bal : BalanceSheet) =>
      inc.netIncome / (if bal.totalEquity = 0 then 1 else bal.totalEquity))
    financials.incomeStatements financials.balanceSheets
  let roeStability := calculateStability roeValues
  let avgRoe := roeValues.sum / roeValues.length
  let roePart :=
    if roeValues ≠ [] ∧ avgRoe ≥ 0.15 ∧ roeStability ≥ 0.8 then (1 : ℝ)
    else if roeValues ≠ [] ∧ avgRoe ≥ 0.10 ∧ roeStability ≥ 0.6 then 0
    else -0.5
  let fcfValues := financials.cashFlowStatements.map CashFlowStatement.freeCashFlow
  let positiveFcfYears := (fcfValues.filter fun fcf => 0 < fcf).length
  let fcfPart :=
    if positiveFcfYears = fcfValues.length ∧ 3 ≤ fcfValues.length then (0.5 : ℝ)
    else if (fcfValues.length : ℝ) * 0.8 ≤ positiveFcfYears then 0
    else -0.5
  let durabilityScore := overallScore + roePart + fcfPart
  let assessment :=
    if durabilityScore ≥ 4 then DurabilityLevel.strong
    else if durabilityScore ≥ 2.5 then DurabilityLevel.moderate
    else DurabilityLevel.weak
  { score := max 1 (min 5 durabilityScore), assessment := assessment }

/-- The `MoatAnalysis` output record (`types/index.ts` lines 97–143);
evidence and factor strings omitted, `analyzedAt : Date` modelled as a real
timestamp. -/
structure MoatAnalysis where
  ticker : String
  companyName : String
  overallScore : ℝ
  moatRating : MoatRating
  brandPower : BrandPowerResult
  costAdvantage : CostAdvantageResult
  networkEffect : NetworkEffectResult
  switchingCosts : SwitchingCostsResult
  scaleEconomies : ScaleEconomiesResult
  durability : DurabilityResult
  analyzedAt : ℝ

/-- `analyzeMoat` (moat-scorer.ts lines 27–81).  The source stamps the
result with `analyzedAt: new Date()`; the wall clock is an implicit input
and is modelled by the explicit `now` argument.  The overall score is
`Math.max` of the five dimension scores, and the rating thresholds are
4 (wide) and 2.5 (narrow). -/
def analyzeMoat (financials : Financials) (quote : StockQuote)
    (profile : CompanyProfile) (now : ℝ) : MoatAnalysis :=
  let ratios := calculateFinancialRatios financials (some quote)
  let brandPower := analyzeBrandPower financials ratios
  let costAdvantage := analyzeCostAdvantage financials ratios
  let networkEffect := analyzeNetworkEffect financials ratios
  let switchingCosts := analyzeSwitchingCosts financials ratios
  let scaleEconomies := analyzeScaleEconomies financials quote profile
  let overallScore :=
    max (max (max (max brandPower.score costAdvantage.score)
      networkEffect.score) switchingCosts.score) scaleEconomies.score
  let moatRating :=
    if overallScore ≥ 4 then MoatRating.wide
    else if overallScore ≥ 2.5 then MoatRating.narrow
    else MoatRating.none
  let durability := analyzeDurability financials overallScore
  { ticker := quote.ticker, companyName := quote.name
    overallScore := overallScore, moatRating := moatRating
    brandPower := brandPower, costAdvantage := costAdvantage
    networkEffect := networkEffect, switchingCosts := switchingCosts
    scaleEconomies := scaleEconomies, durability := durability
    analyzedAt := now }

/-! ## DCF engine (`src/analysis/dcf.ts`) -/

/-- `DCFParams` (dcf.ts lines 18–27); `projectionYears` is used only as a
loop bound and is modelled as a natural number. -/
structure DCFParams where
  discountRate : ℝ
  terminalGrowthRate : ℝ
  projectionYears : ℕ
  customGrowthRate : Option ℝ

/-- The `assumptions` sub-record of `DCFResult`. -/
structure DCFAssumptions where
  discountRate : ℝ
  terminalGrowthRate : ℝ
  projectionYears : ℕ
  estimatedGrowthRate : ℝ
  startingFcf : ℝ

/-- `DCFResult` (dcf.ts lines 32–53). -/
structure DCFResult where
  intrinsicValue : ℝ
  projectedFcf : List ℝ
  terminalValue : ℝ
  pvOfFcf : ℝ
  pvOfTerminal : ℝ
  enterpriseValue : ℝ
  assumptions : DCFAssumptions

/-- A growth candidate inside `estimateGrowthRate` (dcf.ts lines 171–204):
given the per-year values of one metric (newest first), the candidate is its
CAGR over `min(len − 1, 5)` years, kept only with at least 3 years of
history and strictly positive start and end values (the JavaScript guard
`startValue && startValue > 0 && endValue && endValue > 0`). -/
def growthCandidate (vals : List ℝ) : Option ℝ :=
  if 3 ≤ vals.length then
    let years := min (vals.length - 1) 5
    let startValue : ℝ := (vals.get? years).getD 0
    let endValue : ℝ := (vals.get? 0).getD 0
    if startValue > 0 ∧ endValue > 0 then calculateCAGR startValue endValue years
    else none
  else none

/-- The candidate list built by `estimateGrowthRate`, in push order:
free cash flow, then revenue, then EPS. -/
def dcfGrowthCandidates (financials : Financials) : List ℝ :=
  (growthCandidate
      (financials.cashFlowStatements.map CashFlowStatement.freeCashFlow)).toList
  ++ (growthCandidate
      (financials.incomeStatements.map IncomeStatement.revenue)).toList
  ++ (growthCandidate
      (financials.incomeStatements.map IncomeStatement.eps)).toList

/-- `estimateGrowthRate` (dcf.ts lines 165–217): with no candidate the
default is 5%; otherwise the candidates are sorted ascending
(`growthRates.sort((a, b) => a − b)`), the element at index
`Math.floor(length / 2)` is taken, and a 20% haircut is applied. -/
def estimateGrowthRate (financials : Financials) : ℝ :=
  let growthRates := dcfGrowthCandidates financials
  if growthRates = [] then 0.05
  else
    let sorted := growthRates.insertionSort (· ≤ ·)
    ((sorted.get? (growthRates.length / 2)).getD 0) * 0.8

/-- Starting free cash flow: `cashFlowStatements[0]?.freeCashFlow || 0`
(dcf.ts line 76); an absent record gives 0 (and `|| 0` maps 0 to 0). -/
def startingFcf (financials : Financials) : ℝ :=
  ((financials.cashFlowStatements.head?).map CashFlowStatement.freeCashFlow).getD 0

/-- Per-share divisor: `incomeStatements[0]?.sharesOutstanding || 1`
(dcf.ts line 128); both an absent record and a zero value give 1. -/
def dcfShares (financials : Financials) : ℝ :=
  match financials.incomeStatements.head? with
  | some st => if st.sharesOutstanding = 0 then 1 else st.sharesOutstanding
  | none => 1

/-- `netDebt = (balanceSheets[0]?.totalDebt || 0) − (balanceSheets[0]?.cash
|| 0)` (dcf.ts lines 131–132). -/
def dcfNetDebt (financials : Financials) : ℝ :=
  ((financials.balanceSheets.head?).map BalanceSheet.totalDebt).getD 0
  - ((financials.balanceSheets.head?).map BalanceSheet.cash).getD 0

/-- The linearly interpolated growth rate for projection year `year`
(dcf.ts line 103): `growthRate − (growthRate − safeTerminalGrowth) * (year / n)`. -/
def yearGrowthRate (growthRate safeTerminalGrowth : ℝ) (n year : ℕ) : ℝ :=
  growthRate - (growthRate - safeTerminalGrowth) * ((year : ℝ) / (n : ℝ))

/-- Projected free cash flow after `year` loop iterations of
`fcf = fcf * (1 + yearGrowthRate)` (dcf.ts lines 101–106), starting from
`currentFcf`. -/
def projFcf (currentFcf growthRate safeTerminalGrowth : ℝ) (n : ℕ) :
    ℕ → ℝ
  | 0 => currentFcf
  | year + 1 =>
      projFcf currentFcf growthRate safeTerminalGrowth n year *
        (1 + yearGrowthRate growthRate safeTerminalGrowth n (year + 1))

/-- The `projectedFcf` array: entry `year − 1` holds the FCF projected for
year `year = 1..n`. -/
def projectedFcfList (currentFcf growthRate safeTerminalGrowth : ℝ)
    (n : ℕ) : List ℝ :=
  (List.range n).map fun i =>
    projFcf currentFcf growthRate safeTerminalGrowth n (i + 1)

/-- `pvOfFcf` (dcf.ts lines 109–113): each projected FCF discounted by
`(1 + discountRate)^year` and summed. -/
def pvOfFcfSum (currentFcf growthRate safeTerminalGrowth discountRate : ℝ)
    (n : ℕ) : ℝ :=
  ∑ y ∈ Finset.range n,
    projFcf currentFcf growthRate safeTerminalGrowth n (y + 1) /
      (1 + discountRate) ^ (y + 1)

/-- `createNegativeFcfResult` (dcf.ts lines 222–238). -/
def createNegativeFcfResult (params : DCFParams) : DCFResult :=
  { intrinsicValue := 0, projectedFcf := [], terminalValue := 0
    pvOfFcf := 0, pvOfTerminal := 0, enterpriseValue := 0
    assumptions :=
      { discountRate := params.discountRate
        terminalGrowthRate := params.terminalGrowthRate
        projectionYears := params.projectionYears
        estimatedGrowthRate := 0, startingFcf := 0 } }

/-- `calculateDCF` (dcf.ts lines 67–153).  Notes:
* the growth rate is the override if supplied, otherwise
  `estimateGrowthRate`, then clamped to `[−0.10, 0.25]`;
* `safeTerminalGrowth = min(terminalGrowthRate, discountRate − 0.01)`;
* `terminalFcf = projectedFcf[projectionYears − 1] * (1 + safeTerminalGrowth)`
  is modelled as `projFcf … n * (1 + safeTerminalGrowth)`, which agrees with
  the source for `projectionYears ≥ 1` (for `projectionYears = 0` the source
  indexes `projectedFcf[-1]` and produces NaN; theorems therefore assume at
  least one projection year). -/
def calculateDCF (financials : Financials) (_quote : StockQuote)
    (params : DCFParams) : DCFResult :=
  let currentFcf := startingFcf financials
  if currentFcf ≤ 0 then createNegativeFcfResult params
  else
    let growthRate0 := params.customGrowthRate.getD (estimateGrowthRate financials)
    let growthRate := max (-0.10) (min growthRate0 0.25)
    let safeTerminalGrowth :=
      min params.terminalGrowthRate (params.discountRate - 0.01)
    let n := params.projectionYears
    let projectedFcf := projectedFcfList currentFcf growthRate safeTerminalGrowth n
    let pvOfFcf :=
      pvOfFcfSum currentFcf growthRate safeTerminalGrowth params.discountRate n
    let terminalFcf :=
      projFcf currentFcf growthRate safeTerminalGrowth n n *
        (1 + safeTerminalGrowth)
    let terminalValue := terminalFcf / (params.discountRate - safeTerminalGrowth)
    let pvOfTerminal := terminalValue / (1 + params.discountRate) ^ n
    let enterpriseValue := pvOfFcf + pvOfTerminal
    let sharesOutstanding := dcfShares financials
    let netDebt := dcfNetDebt financials
    let equityValue := enterpriseValue - netDebt
    { intrinsicValue := max 0 (equityValue / sharesOutstanding)
      projectedFcf := projectedFcf, terminalValue := terminalValue
      pvOfFcf := pvOfFcf, pvOfTerminal := pvOfTerminal
      enterpriseValue := enterpriseValue
      assumptions :=
        { discountRate := params.discountRate
          terminalGrowthRate := safeTerminalGrowth
          projectionYears := n
          estimatedGrowthRate := growthRate
          startingFcf := currentFcf } }

/-! ## Spec-side definitions (written from the specification's wording,
for comparison against the source embedding above) -/

/-- Arithmetic mean of a list (spec: "the mean of the values"). -/
def listMean (l : List ℝ) : ℝ := l.sum / l.length

/-- Population variance of a list. -/
def listVariance (l : List ℝ) : ℝ :=
  (l.map fun v => ((v - listMean l) ^ 2 : ℝ)).sum / l.length

/-- Coefficient of variation, standard deviation over the absolute mean
(spec: "coefficient of variation"). -/
def coefficientOfVariation (l : List ℝ) : ℝ :=
  Real.sqrt (listVariance l) / |listMean l|

/-- The amended stability contract: `1 − CV` clamped to `[0, 1]`, equal to 1
for fewer than two points and to 0 (not 1, as first claimed) when the mean
is zero. -/
def stabilityAmended (l : List ℝ) : ℝ :=
  if l.length < 2 then 1
  else if listMean l = 0 then 0
  else max 0 (min 1 (1 - coefficientOfVariation l))

/-- Spec-side growth field: the CAGR over `min(availableYears − 1, 5)` years
from the raw series (newest first); `calculateCAGR` already returns `none`
when the year count is zero or an endpoint is not strictly positive. -/
def growthCAGRSpec (vals : List ℝ) : Option ℝ :=
  let years := min (vals.length - 1) 5
  calculateCAGR ((vals.get? years).getD 0) ((vals.get? 0).getD 0) years

/-- The statistical median of a list: middle element of the ascending sort
for odd length, the average of the two middle elements for even length. -/
def medianSpec (l : List ℝ) : ℝ :=
  let sorted := l.insertionSort (· ≤ ·)
  if l.length % 2 = 1 then (sorted.get? (l.length / 2)).getD 0
  else
    ((sorted.get? (l.length / 2 - 1)).getD 0 +
      (sorted.get? (l.length / 2)).getD 0) / 2

/-- The growth rate claimed by the spec for `estimateGrowthRate`: the
statistical median of the candidate list with a 20% haircut, 5% by default. -/
def growthRateClaimed (financials : Financials) : ℝ :=
  let candidates := dcfGrowthCandidates financials
  if candidates = [] then 0.05 else medianSpec candidates * 0.8

/-! ## Concrete inputs used by witnesses and counterexamples -/

/-- A fixed quote; `calculateDCF` ignores its quote argument and the moat
scorer only reads `ticker`, `name` and `marketCap`. -/
def sampleQuote : StockQuote :=
  { ticker := "TEST", name := "Test Co", price := 100, marketCap := 1000000
    pe := none, pb := none, ps := none }

/-- A fixed company profile with no employee count. -/
def sampleProfile : CompanyProfile :=
  { ticker := "TEST", name := "Test Co", employees := none }

/-- Financials with no statements at all. -/
def emptyFinancials : Financials :=
  { incomeStatements := [], balanceSheets := [], cashFlowStatements := [] }

/-- An income statement that is zero except for revenue and EPS. -/
def incomeRevEps (revenue eps : ℝ) : IncomeStatement :=
  { revenue := revenue, grossProfit := 0, operatingIncome := 0
    interestExpense := none, netIncome := 0, eps := eps, ebitda := 0
    sharesOutstanding := 0 }

/-- A cash-flow statement that is zero except for free cash flow. -/
def cashFlowFcf (fcf : ℝ) : CashFlowStatement :=
  { depreciation := 0, operatingCashFlow := 0, capitalExpenditure := 0
    freeCashFlow := fcf }

/-- Three years of history: revenue 100 → 144 (CAGR 20%), free cash flow
100 → 121 (CAGR 10%), EPS fixed at −1 (so the EPS growth candidate is
rejected).  The growth-candidate list is [0.1, 0.2]: even length, with
median 0.15 but upper-middle element 0.2. -/
def medianFin : Financials :=
  { incomeStatements :=
      [incomeRevEps 144 (-1), incomeRevEps 120 (-1), incomeRevEps 100 (-1)]
    balanceSheets :=
      [{ totalAssets := 0, currentAssets := 0, cash := 0, inventory := none
         currentLiabilities := 0, totalDebt := 0, totalEquity := 0 }]
    cashFlowStatements := [cashFlowFcf 121, cashFlowFcf 110, cashFlowFcf 100] }

/-- Financials whose only income statement carries −1 shares outstanding,
with free cash flow 1 and net debt 20: division by the negative share count
makes `intrinsicValue` increase with the discount rate. -/
def negShareFin : Financials :=
  { incomeStatements :=
      [{ revenue := 0, grossProfit := 0, operatingIncome := 0
         interestExpense := none, netIncome := 0, eps := 0, ebitda := 0
         sharesOutstanding := -1 }]
    balanceSheets :=
      [{ totalAssets := 0, currentAssets := 0, cash := 0, inventory := none
         currentLiabilities := 0, totalDebt := 20, totalEquity := 0 }]
    cashFlowStatements := [cashFlowFcf 1] }

/-- Financials with a single year of history in each list (growth fields
are then all `none`), and positive free cash flow. -/
def oneYearFin : Financials :=
  { incomeStatements := [incomeRevEps 100 2]
    balanceSheets :=
      [{ totalAssets := 0, currentAssets := 0, cash := 0, inventory := none
         currentLiabilities := 0, totalDebt := 0, totalEquity := 0 }]
    cashFlowStatements := [cashFlowFcf 5] }

/-! ## Claim theorems -/

/-- C6 counterexample: at price 70 and intrinsic value 100 the margin is
0.30, which falls in the `≥ minimum (0.25)` band, so the source assigns
`riskLevel = 'medium'`, not `'low'` as the claim states. -/
theorem claim6_counterexample :
    (calculateMarginOfSafety 70 100).riskLevel ≠ RiskLevel.low := by
  have h : calculateMarginOfSafety 70 100 =
      { marginOfSafety := (100 - 70) / 100, currentPrice := 70
        intrinsicValue := 100
        status := ValStatus.undervalued, riskLevel := RiskLevel.medium } := by
    rw [calculateMarginOfSafety]
    norm_num [marginOfSafetyThresholds]
  rw [h]
  simp

/-- C6 (amended): `calculateMarginOfSafety 70 100` returns margin 0.30 with
status `undervalued` and risk level `medium` (not `low`: 0.30 lies in the
acceptable band, below the 0.35 `good` threshold);
`calculateMarginOfSafety 130 100` returns margin −0.30 with status
`overvalued`. -/
theorem claim6_margin_examples :
    (calculateMarginOfSafety 70 100).marginOfSafety = 0.30 ∧
    (calculateMarginOfSafety 70 100).status = ValStatus.undervalued ∧
    (calculateMarginOfSafety 70 100).riskLevel = RiskLevel.medium ∧
    (calculateMarginOfSafety 130 100).marginOfSafety = -0.30 ∧
    (calculateMarginOfSafety 130 100).status = ValStatus.overvalued := by
  have h1 : calculateMarginOfSafety 70 100 =
      { marginOfSafety := (100 - 70) / 100, currentPrice := 70
        intrinsicValue := 100
        status := ValStatus.undervalued, riskLevel := RiskLevel.medium } := by
    rw [calculateMarginOfSafety]
    norm_num [marginOfSafetyThresholds]
  have h2 : calculateMarginOfSafety 130 100 =
      { marginOfSafety := (100 - 130) / 100, currentPrice := 130
        intrinsicValue := 100
        status := ValStatus.overvalued, riskLevel := RiskLevel.high } := by
    rw [calculateMarginOfSafety]
    norm_num [marginOfSafetyThresholds]
  rw [h1, h2]
  norm_num

/-- C1 (confirmed): whenever the most recent cash-flow record is absent or
its free cash flow is ≤ 0, `calculateDCF` returns the refuse-to-estimate
result: intrinsic value 0, empty projection, and zero terminal value,
present values and enterprise value. -/
theorem claim1_dcf_refuses_nonpositive_fcf (f : Financials) (q : StockQuote)
    (params : DCFParams)
    (h : ∀ c ∈ f.cashFlowStatements.head?, c.freeCashFlow ≤ 0) :
    calculateDCF f q params = createNegativeFcfResult params ∧
    (calculateDCF f q params).intrinsicValue = 0 ∧
    (calculateDCF f q params).projectedFcf = [] ∧
    (calculateDCF f q params).terminalValue = 0 ∧
    (calculateDCF f q params).pvOfFcf = 0 ∧
    (calculateDCF f q params).pvOfTerminal = 0 ∧
    (calculateDCF f q params).enterpriseValue = 0 := by
  have hfcf : startingFcf f ≤ 0 := by
    cases hh : f.cashFlowStatements.head? with
    | none => simp [startingFcf, hh]
    | some c =>
        have := h c (by rw [hh]; rfl)
        simpa [startingFcf, hh] using this
  have hmain : calculateDCF f q params = createNegativeFcfResult params := by
    rw [calculateDCF, if_pos hfcf]
  refine ⟨hmain, ?_, ?_, ?_, ?_, ?_, ?_⟩ <;>
    rw [hmain] <;> rfl

/-- C1 witness: financials with no cash-flow statements at all hit the
refuse branch. -/
theorem claim1_witness :
    (∀ c ∈ emptyFinancials.cashFlowStatements.head?, c.freeCashFlow ≤ 0) ∧
    calculateDCF emptyFinancials sampleQuote
        { discountRate := 0.10, terminalGrowthRate := 0.03
          projectionYears := 10, customGrowthRate := none } =
      createNegativeFcfResult
        { discountRate := 0.10, terminalGrowthRate := 0.03
          projectionYears := 10, customGrowthRate := none } :=
  ⟨by simp [emptyFinancials],
    (claim1_dcf_refuses_nonpositive_fcf emptyFinancials sampleQuote _
      (by simp [emptyFinancials])).1⟩

/-- C10 (confirmed): with positive starting free cash flow and the
`sharesOutstanding` of the most recent income record absent or zero, the
per-share divisor silently defaults to 1, so the reported per-share
intrinsic value is `max 0 (enterpriseValue − netDebt)`, and the model still
produces a full projection rather than refusing.  (`projectionYears ≥ 1`
keeps the terminal-value indexing of the source well defined.) -/
theorem claim10_default_share_divisor (f : Financials) (q : StockQuote)
    (params : DCFParams) (h1 : 0 < startingFcf f)
    (h2 : ∀ st ∈ f.incomeStatements.head?, st.sharesOutstanding = 0)
    (_h3 : 1 ≤ params.projectionYears) :
    (calculateDCF f q params).intrinsicValue =
      max 0 ((calculateDCF f q params).enterpriseValue - dcfNetDebt f) ∧
    (calculateDCF f q params).projectedFcf.length = params.projectionYears := by
  have hshares : dcfShares f = 1 := by
    cases hh : f.incomeStatements.head? with
    | none => simp [dcfShares, hh]
    | some st =>
        have := h2 st (by rw [hh]; rfl)
        simp [dcfShares, hh, this]
  rw [calculateDCF, if_neg (not_le.2 h1)]
  constructor
  · simp only [hshares, div_one]
  · simp [projectedFcfList]

/-- C10 witness: one year of history, free cash flow 5, shares recorded
as 0. -/
theorem claim10_witness :
    0 < startingFcf oneYearFin ∧
    (∀ st ∈ oneYearFin.incomeStatements.head?, st.sharesOutstanding = 0) ∧
    (calculateDCF oneYearFin sampleQuote
        { discountRate := 0.10, terminalGrowthRate := 0.03
          projectionYears := 10, customGrowthRate := none }).intrinsicValue =
      max 0 ((calculateDCF oneYearFin sampleQuote
        { discountRate := 0.10, terminalGrowthRate := 0.03
          projectionYears := 10, customGrowthRate := none }).enterpriseValue
        - dcfNetDebt oneYearFin) :=
  ⟨by norm_num [startingFcf, oneYearFin, cashFlowFcf],
   by simp [oneYearFin, incomeRevEps],
   (claim10_default_share_divisor oneYearFin sampleQuote _
      (by norm_num [startingFcf, oneYearFin, cashFlowFcf])
      (by simp [oneYearFin, incomeRevEps]) (by norm_num)).1⟩

/-- `List.foldl min` never exceeds its initial accumulator. -/
theorem foldl_min_le_init (xs : List ℝ) : ∀ x : ℝ, xs.foldl min x ≤ x := by
  induction xs with
  | nil => intro x; simp
  | cons y ys ih =>
      intro x
      calc (y :: ys).foldl min x = ys.foldl min (min x y) := rfl
        _ ≤ min x y := ih (min x y)
        _ ≤ x := min_le_left _ _

/-- `List.foldl min` is a lower bound for every list element. -/
theorem foldl_min_le_mem (xs : List ℝ) :
    ∀ x v, v ∈ xs → xs.foldl min x ≤ v := by
  induction xs with
  | nil => intro x v hv; cases hv
  | cons y ys ih =>
      intro x v hv
      rcases List.mem_cons.1 hv with rfl | hv
      · calc (v :: ys).foldl min x = ys.foldl min (min x v) := rfl
          _ ≤ min x v := foldl_min_le_init ys (min x v)
          _ ≤ v := min_le_right _ _
      · exact ih (min x y) v hv

/-- `listMin` is a lower bound for every element of the list. -/
theorem listMin_le_mem (l : List ℝ) (v : ℝ) (hv : v ∈ l) : listMin l ≤ v := by
  cases l with
  | nil => cases hv
  | cons x xs =>
      rcases List.mem_cons.1 hv with rfl | hv
      · exact foldl_min_le_init xs v
      · exact foldl_min_le_mem xs x v hv

/-- C4 (confirmed): the combiner drops null and non-positive valuations;
with no survivor it returns margin −1 and status `overvalued`; otherwise the
effective intrinsic value (returned as `averageIntrinsicValue`) is
`min(minimum, mean)` of the survivors, hence never exceeds any surviving
valuation. -/
theorem claim4_combined_margin_conservative (price : ℝ)
    (valuations : List (String × Option ℝ)) (_hp : 0 < price) :
    (validValuations valuations = [] →
      (calculateCombinedMarginOfSafety price valuations).combinedMarginOfSafety
          = -1 ∧
      (calculateCombinedMarginOfSafety price valuations).status
          = ValStatus.overvalued) ∧
    (validValuations valuations ≠ [] →
      (calculateCombinedMarginOfSafety price valuations).averageIntrinsicValue
          = min (listMin (validValuations valuations))
              (listMean (validValuations valuations)) ∧
      ∀ v ∈ validValuations valuations,
        (calculateCombinedMarginOfSafety price valuations).averageIntrinsicValue
            ≤ v) := by
  constructor
  · intro h
    rw [calculateCombinedMarginOfSafety]
    simp only [h, if_pos rfl]
    exact ⟨rfl, rfl⟩
  · intro h
    have hres :
        (calculateCombinedMarginOfSafety price valuations).averageIntrinsicValue
          = min (listMin (validValuations valuations))
              (listMean (validValuations valuations)) := by
      rw [calculateCombinedMarginOfSafety]
      simp only [if_neg h]
      rfl
    refine ⟨hres, fun v hv => ?_⟩
    rw [hres]
    exact le_trans (min_le_left _ _) (listMin_le_mem _ v hv)

/-- C4 witness: price 50, one valid valuation (100) and one discarded null
entry. -/
theorem claim4_witness :
    (0 : ℝ) < 50 ∧
    validValuations [("dcf", some 100), ("graham", none)] ≠ [] ∧
    (calculateCombinedMarginOfSafety 50
        [("dcf", some 100), ("graham", none)]).averageIntrinsicValue
      = min (listMin (validValuations [("dcf", some 100), ("graham", none)]))
          (listMean (validValuations [("dcf", some 100), ("graham", none)])) :=
  ⟨by norm_num,
   by simp [validValuations],
   ((claim4_combined_margin_conservative 50
        [("dcf", some 100), ("graham", none)] (by norm_num)).2
      (by simp [validValuations])).1⟩

/-- Rating bands as a function of the overall score. -/
theorem moatRating_iff (os : ℝ) :
    (((if os ≥ 4 then MoatRating.wide else if os ≥ 2.5 then MoatRating.narrow
        else MoatRating.none) = MoatRating.wide) ↔ 4 ≤ os) ∧
    (((if os ≥ 4 then MoatRating.wide else if os ≥ 2.5 then MoatRating.narrow
        else MoatRating.none) = MoatRating.narrow) ↔ 2.5 ≤ os ∧ os < 4) ∧
    (((if os ≥ 4 then MoatRating.wide else if os ≥ 2.5 then MoatRating.narrow
        else MoatRating.none) = MoatRating.none) ↔ os < 2.5) := by
  refine ⟨?_, ?_, ?_⟩ <;> split_ifs with h1 h2 <;> (simp_all; try linarith)

/-- C5 (confirmed): the overall moat score is the maximum of the five
dimension scores, and the rating bands are exactly `wide ⟺ score ≥ 4`,
`narrow ⟺ 2.5 ≤ score < 4`, `none ⟺ score < 2.5`. -/
theorem claim5_moat_overall_is_max (f : Financials) (q : StockQuote)
    (p : CompanyProfile) (now : ℝ) :
    (analyzeMoat f q p now).overallScore =
      max (max (max (max (analyzeMoat f q p now).brandPower.score
            (analyzeMoat f q p now).costAdvantage.score)
          (analyzeMoat f q p now).networkEffect.score)
        (analyzeMoat f q p now).switchingCosts.score)
      (analyzeMoat f q p now).scaleEconomies.score ∧
    ((analyzeMoat f q p now).moatRating = MoatRating.wide ↔
      4 ≤ (analyzeMoat f q p now).overallScore) ∧
    ((analyzeMoat f q p now).moatRating = MoatRating.narrow ↔
      2.5 ≤ (analyzeMoat f q p now).overallScore ∧
        (analyzeMoat f q p now).overallScore < 4) ∧
    ((analyzeMoat f q p now).moatRating = MoatRating.none ↔
      (analyzeMoat f q p now).overallScore < 2.5) :=
  ⟨rfl, moatRating_iff ((analyzeMoat f q p now).overallScore)⟩

/-- C9 counterexample: `analyzeMoat` stamps `analyzedAt: new Date()`, an
implicit clock input; two invocations on identical explicit inputs but at
distinct instants produce records that are not identical. -/
theorem claim9_counterexample :
    analyzeMoat emptyFinancials sampleQuote sampleProfile 0 ≠
      analyzeMoat emptyFinancials sampleQuote sampleProfile 1 := by
  intro h
  have h' := congrArg MoatAnalysis.analyzedAt h
  simp only [analyzeMoat] at h'
  norm_num at h'

/-- C9 (amended): every field of `analyzeMoat` other than `analyzedAt` is a
deterministic function of the explicit inputs (financials, quote, profile)
alone — invocations at different times agree on all of them — while
`analyzedAt` records the invocation instant itself. -/
theorem claim9_deterministic_except_timestamp (f : Financials)
    (q : StockQuote) (p : CompanyProfile) (t₁ t₂ : ℝ) :
    (analyzeMoat f q p t₁).ticker = (analyzeMoat f q p t₂).ticker ∧
    (analyzeMoat f q p t₁).companyName = (analyzeMoat f q p t₂).companyName ∧
    (analyzeMoat f q p t₁).overallScore = (analyzeMoat f q p t₂).overallScore ∧
    (analyzeMoat f q p t₁).moatRating = (analyzeMoat f q p t₂).moatRating ∧
    (analyzeMoat f q p t₁).brandPower = (analyzeMoat f q p t₂).brandPower ∧
    (analyzeMoat f q p t₁).costAdvantage
        = (analyzeMoat f q p t₂).costAdvantage ∧
    (analyzeMoat f q p t₁).networkEffect
        = (analyzeMoat f q p t₂).networkEffect ∧
    (analyzeMoat f q p t₁).switchingCosts
        = (analyzeMoat f q p t₂).switchingCosts ∧
    (analyzeMoat f q p t₁).scaleEconomies
        = (analyzeMoat f q p t₂).scaleEconomies ∧
    (analyzeMoat f q p t₁).durability = (analyzeMoat f q p t₂).durability ∧
    (analyzeMoat f q p t₁).analyzedAt = t₁ :=
  ⟨rfl, rfl, rfl, rfl, rfl, rfl, rfl, rfl, rfl, rfl, rfl⟩

/-- C8 counterexample: for the two-point list `[1, −1]` the mean is zero and
the source returns 0, not 1 as the claim states
(`if (mean === 0) return 0`, moat-scorer.ts line 458). -/
theorem claim8_counterexample :
    calculateStability [1, -1] ≠ 1 := by
  have h : calculateStability [1, -1] = 0 := by
    rw [calculateStability]
    norm_num
  rw [h]
  norm_num

/-- C8 (amended): the stability metric is `1 − CV` clamped to `[0, 1]`,
equals 1 when fewer than two data points are supplied, and equals 0 (not 1)
when the mean of the values is zero. -/
theorem claim8_stability_formula (values : List ℝ) :
    calculateStability values = stabilityAmended values := rfl

/-- C7 counterexample: `medianFin` has EPS −1 in every year (not strictly
positive), yet `epsGrowth5Y` is `some 0`, not `null`: the source clamps both
endpoints to at least 0.01 (`Math.max(…, 0.01)`, ratios.ts lines 126–127)
instead of leaving the growth undefined. -/
theorem claim7_counterexample :
    (calculateFinancialRatios medianFin none).epsGrowth5Y = some 0 ∧
    (calculateFinancialRatios medianFin none).epsGrowth5Y ≠ none := by
  have h : (calculateFinancialRatios medianFin none).epsGrowth5Y = some 0 := by
    norm_num [calculateFinancialRatios, medianFin, incomeRevEps, cashFlowFcf,
      calculateCAGR, Real.one_rpow]
  exact ⟨h, by rw [h]; simp⟩

/-- Evaluating the spec-side growth field on a mapped nonempty series. -/
theorem growthCAGRSpec_map_cons {α : Type} (f : α → ℝ) (a : α) (l : List α)
    (s : α) (hs : (a :: l).get? (min l.length 5) = some s) :
    growthCAGRSpec ((a :: l).map f) =
      calculateCAGR (f s) (f a) (min l.length 5) := by
  have hb : min l.length 5 < (a :: l).length := by simp [Nat.lt_succ_iff]
  have hg : (a :: l)[min l.length 5] = s :=
    List.getElem_eq_iff.2 (by rw [← List.get?_eq_getElem?]; exact hs)
  rw [growthCAGRSpec]
  simp [List.get?_map, hs, ← List.map_cons, List.getElem_map, hg]

/-- C7 (amended): with most-recent statements present, `revenueGrowth5Y` is
the raw CAGR over `min(availableYears − 1, 5)` years (undefined when an
endpoint is not strictly positive or the year count is zero), but
`epsGrowth5Y` and `fcfGrowth5Y` clamp their endpoints to at least 0.01
resp. 1 first, and are therefore undefined only when the year count is
zero. -/
theorem claim7_growth_fields (f : Financials) (q : Option StockQuote)
    (inc : IncomeStatement) (bal : BalanceSheet) (cf : CashFlowStatement)
    (hi : f.incomeStatements.head? = some inc)
    (hb : f.balanceSheets.head? = some bal)
    (hc : f.cashFlowStatements.head? = some cf) :
    (calculateFinancialRatios f q).revenueGrowth5Y =
      growthCAGRSpec (f.incomeStatements.map IncomeStatement.revenue) ∧
    (calculateFinancialRatios f q).epsGrowth5Y =
      growthCAGRSpec (f.incomeStatements.map fun s => max s.eps 0.01) ∧
    (calculateFinancialRatios f q).fcfGrowth5Y =
      growthCAGRSpec (f.cashFlowStatements.map fun s => max s.freeCashFlow 1) ∧
    ((calculateFinancialRatios f q).epsGrowth5Y = none ↔
      f.incomeStatements.length ≤ 1) ∧
    ((calculateFinancialRatios f q).fcfGrowth5Y = none ↔
      f.cashFlowStatements.length ≤ 1) := by
  obtain ⟨Li, Lb, Lc⟩ := f
  cases Li with
  | nil => simp at hi
  | cons inc0 ti =>
  cases Lb with
  | nil => simp at hb
  | cons bal0 tb =>
  cases Lc with
  | nil => simp at hc
  | cons cf0 tc =>
  clear hi hb hc
  have hltI : min ti.length 5 < (inc0 :: ti).length := by
    simp [Nat.lt_succ_iff]
  have hltC : min tc.length 5 < (cf0 :: tc).length := by
    simp [Nat.lt_succ_iff]
  obtain ⟨sI, hsI⟩ : ∃ s, (inc0 :: ti).get? (min ti.length 5) = some s :=
    ⟨_, List.get?_eq_get hltI⟩
  obtain ⟨sC, hsC⟩ : ∃ s, (cf0 :: tc).get? (min tc.length 5) = some s :=
    ⟨_, List.get?_eq_get hltC⟩
  have hgI : (inc0 :: ti)[min ti.length 5] = sI :=
    List.getElem_eq_iff.2 (by rw [← List.get?_eq_getElem?]; exact hsI)
  have hgC : (cf0 :: tc)[min tc.length 5] = sC :=
    List.getElem_eq_iff.2 (by rw [← List.get?_eq_getElem?]; exact hsC)
  have hepsS : ¬ (max sI.eps 0.01 ≤ (0 : ℝ)) :=
    not_le.2 (lt_of_lt_of_le (by norm_num) (le_max_right _ _))
  have hepsE : ¬ (max inc0.eps 0.01 ≤ (0 : ℝ)) :=
    not_le.2 (lt_of_lt_of_le (by norm_num) (le_max_right _ _))
  have hfcfS : ¬ (max sC.freeCashFlow 1 ≤ (0 : ℝ)) :=
    not_le.2 (lt_of_lt_of_le (by norm_num) (le_max_right _ _))
  have hfcfE : ¬ (max cf0.freeCashFlow 1 ≤ (0 : ℝ)) :=
    not_le.2 (lt_of_lt_of_le (by norm_num) (le_max_right _ _))
  refine ⟨?_, ?_, ?_, ?_, ?_⟩
  · -- revenueGrowth5Y agrees with the raw spec CAGR
    rw [growthCAGRSpec_map_cons IncomeStatement.revenue inc0 ti sI hsI]
    by_cases h0 : min ti.length 5 = 0
    · simp [calculateFinancialRatios, h0, calculateCAGR]
    · simp [calculateFinancialRatios, h0, hsI, hgI]
  · -- epsGrowth5Y: endpoints clamped to 0.01
    rw [growthCAGRSpec_map_cons (fun s => max s.eps 0.01) inc0 ti sI hsI]
    by_cases h0 : min ti.length 5 = 0
    · simp [calculateFinancialRatios, h0, calculateCAGR]
    · simp [calculateFinancialRatios, h0, hsI, hgI]
  · -- fcfGrowth5Y: endpoints clamped to 1
    rw [growthCAGRSpec_map_cons (fun s => max s.freeCashFlow 1) cf0 tc sC hsC]
    by_cases h0 : min tc.length 5 = 0
    · simp [calculateFinancialRatios, h0, calculateCAGR]
    · simp [calculateFinancialRatios, h0, hsC, hgC]
  · -- epsGrowth5Y is none exactly when there is at most one year
    by_cases h0 : min ti.length 5 = 0
    · have h0' : ti.length = 0 := by omega
      simp [calculateFinancialRatios, h0, h0']
    · have h0' : ¬ ti.length = 0 := by omega
      simp [calculateFinancialRatios, h0, hsI, hgI, calculateCAGR, hepsS,
        hepsE, h0']
  · -- fcfGrowth5Y is none exactly when there is at most one year
    by_cases h0 : min tc.length 5 = 0
    · have h0' : tc.length = 0 := by omega
      simp [calculateFinancialRatios, h0, h0']
    · have h0' : ¬ tc.length = 0 := by omega
      simp [calculateFinancialRatios, h0, hsC, hgC, calculateCAGR, hfcfS,
        hfcfE, h0']

/-- C7 witness: a single year of history in every list, so the three growth
fields and their spec counterparts are all `none`. -/
theorem claim7_witness :
    oneYearFin.incomeStatements.head? =
      some (incomeRevEps 100 2) ∧
    (calculateFinancialRatios oneYearFin none).epsGrowth5Y =
      growthCAGRSpec (oneYearFin.incomeStatements.map fun s => max s.eps 0.01) :=
  ⟨by simp [oneYearFin],
   (claim7_growth_fields oneYearFin none (incomeRevEps 100 2)
      { totalAssets := 0, currentAssets := 0, cash := 0, inventory := none
        currentLiabilities := 0, totalDebt := 0, totalEquity := 0 }
      (cashFlowFcf 5)
      (by simp [oneYearFin]) (by simp [oneYearFin]) (by simp [oneYearFin])).2.1⟩

/-- Closed-form evaluation of `calculateCAGR` when the growth factor is a
known `n`-th root. -/
theorem calculateCAGR_eq_of_pow (s e y : ℝ) (n : ℕ) (hn : n ≠ 0)
    (hy : 0 ≤ y) (hs : 0 < s) (he : 0 < e) (h : y ^ n = e / s) :
    calculateCAGR s e n = some (y - 1) := by
  rw [calculateCAGR, if_neg]
  · rw [← h, one_div, Real.pow_rpow_inv_natCast hy hn]
  · push_neg
    exact ⟨hs, he, hn⟩

/-- C3 counterexample: for `medianFin` the candidate list is `[0.1, 0.2]`
(FCF CAGR 10%, revenue CAGR 20%, EPS rejected).  The source takes the
element at index `⌊2/2⌋ = 1` of the ascending sort — the larger middle
element 0.2 — giving 0.16 after the haircut, while the claimed median rule
gives `0.15 × 0.8 = 0.12`. -/
theorem claim3_counterexample :
    (calculateDCF medianFin sampleQuote
        { discountRate := 0.10, terminalGrowthRate := 0.03
          projectionYears := 10,
          customGrowthRate := none }).assumptions.estimatedGrowthRate = 0.16 ∧
    growthRateClaimed medianFin = 0.12 ∧
    (calculateDCF medianFin sampleQuote
        { discountRate := 0.10, terminalGrowthRate := 0.03
          projectionYears := 10,
          customGrowthRate := none }).assumptions.estimatedGrowthRate ≠
      growthRateClaimed medianFin := by
  have c1 : calculateCAGR 100 121 2 = some 0.1 := by
    rw [calculateCAGR_eq_of_pow 100 121 (11 / 10) 2 (by norm_num)
      (by norm_num) (by norm_num) (by norm_num) (by norm_num)]
    norm_num
  have c2 : calculateCAGR 100 144 2 = some 0.2 := by
    rw [calculateCAGR_eq_of_pow 100 144 (12 / 10) 2 (by norm_num)
      (by norm_num) (by norm_num) (by norm_num) (by norm_num)]
    norm_num
  have hcands : dcfGrowthCandidates medianFin = [0.1, 0.2] := by
    rw [dcfGrowthCandidates]
    norm_num [growthCandidate, medianFin, cashFlowFcf, incomeRevEps, c1, c2]
  have hle : (0.1 : ℝ) ≤ 0.2 := by norm_num
  have hest : estimateGrowthRate medianFin = 0.16 := by
    rw [estimateGrowthRate, hcands]
    simp [List.insertionSort, List.orderedInsert, hle]
    norm_num
  have hclaimed : growthRateClaimed medianFin = 0.12 := by
    rw [growthRateClaimed, hcands]
    simp [medianSpec, List.insertionSort, List.orderedInsert, hle]
    norm_num
  have hpos : ¬ startingFcf medianFin ≤ 0 := by
    norm_num [startingFcf, medianFin, cashFlowFcf]
  have hdcf : (calculateDCF medianFin sampleQuote
      { discountRate := 0.10, terminalGrowthRate := 0.03
        projectionYears := 10,
        customGrowthRate := none }).assumptions.estimatedGrowthRate = 0.16 := by
    rw [calculateDCF, if_neg hpos]
    simp [hest]
    norm_num
  refine ⟨hdcf, hclaimed, ?_⟩
  rw [hdcf, hclaimed]
  norm_num

/-- C3 (amended): with no override and positive starting FCF, the growth
rate used is `clamp₍₋₀.₁,₀.₂₅₎` of `estimateGrowthRate`, which is 0.05 when
no CAGR candidate succeeds and otherwise `0.8 ×` the element at index
`⌊n/2⌋` of the ascending-sorted candidate list — the statistical median for
odd candidate counts, but the larger middle element (not the median) for
even counts. -/
theorem claim3_growth_selection (f : Financials) (q : StockQuote)
    (params : DCFParams) (hc : params.customGrowthRate = none)
    (hf : 0 < startingFcf f) :
    (calculateDCF f q params).assumptions.estimatedGrowthRate
        = max (-0.10) (min (estimateGrowthRate f) 0.25) ∧
    (dcfGrowthCandidates f = [] → estimateGrowthRate f = 0.05) ∧
    (dcfGrowthCandidates f ≠ [] →
      estimateGrowthRate f =
        (((dcfGrowthCandidates f).insertionSort (· ≤ ·)).get?
            ((dcfGrowthCandidates f).length / 2)).getD 0 * 0.8) ∧
    ((dcfGrowthCandidates f).length % 2 = 1 →
      estimateGrowthRate f = medianSpec (dcfGrowthCandidates f) * 0.8) := by
  refine ⟨?_, ?_, ?_, ?_⟩
  · rw [calculateDCF, if_neg (not_le.2 hf)]
    simp [hc, estimateGrowthRate]
  · intro h
    rw [estimateGrowthRate, if_pos h]
  · intro h
    rw [estimateGrowthRate, if_neg h]
  · intro hodd
    have hne : dcfGrowthCandidates f ≠ [] := by
      intro h
      rw [h] at hodd
      simp at hodd
    rw [estimateGrowthRate, if_neg hne, medianSpec, if_pos hodd]

/-- C3 witness: one year of history gives no candidate, positive starting
FCF, and the default 5% growth estimate. -/
theorem claim3_witness :
    ({ discountRate := 0.10, terminalGrowthRate := 0.03
       projectionYears := 10,
       customGrowthRate := none } : DCFParams).customGrowthRate = none ∧
    0 < startingFcf oneYearFin ∧
    (calculateDCF oneYearFin sampleQuote
        { discountRate := 0.10, terminalGrowthRate := 0.03
          projectionYears := 10,
          customGrowthRate := none }).assumptions.estimatedGrowthRate
      = max (-0.10) (min (estimateGrowthRate oneYearFin) 0.25) :=
  ⟨rfl, by norm_num [startingFcf, oneYearFin, cashFlowFcf],
   (claim3_growth_selection oneYearFin sampleQuote _ rfl
      (by norm_num [startingFcf, oneYearFin, cashFlowFcf])).1⟩

/-- With zero growth and zero terminal growth every projected FCF equals the
starting FCF. -/
theorem projFcf_zero_growth (F : ℝ) (n : ℕ) :
    ∀ y, projFcf F 0 0 n y = F
  | 0 => rfl
  | y + 1 => by
      rw [projFcf, projFcf_zero_growth F n y, yearGrowthRate]
      ring

/-- C2 counterexample: with the most recent income record carrying −1
shares outstanding (an input the claim does not exclude), dividing the
negative equity value (enterprise value 10 or 5, minus net debt 20) by −1
makes `intrinsicValue` strictly increase from 10 to 15 as the discount rate
rises from 0.10 to 0.20 — all parameters inside the claimed ranges and every
other input held fixed. -/
theorem claim2_counterexample :
    (0.01 : ℝ) ≤ 0.10 ∧ (0.10 : ℝ) ≤ 0.20 ∧ (0.20 : ℝ) ≤ 0.30 ∧
    (0 : ℝ) ≤ 0 ∧ (0 : ℝ) ≤ 0.10 ∧ 5 ≤ 5 ∧ 5 ≤ 20 ∧
    (calculateDCF negShareFin sampleQuote
        { discountRate := 0.10, terminalGrowthRate := 0
          projectionYears := 5, customGrowthRate := some 0 }).intrinsicValue <
      (calculateDCF negShareFin sampleQuote
        { discountRate := 0.20, terminalGrowthRate := 0
          projectionYears := 5, customGrowthRate := some 0 }).intrinsicValue := by
  have hpos : ¬ startingFcf negShareFin ≤ 0 := by
    norm_num [startingFcf, negShareFin, cashFlowFcf]
  have h1 : (calculateDCF negShareFin sampleQuote
      { discountRate := 0.10, terminalGrowthRate := 0
        projectionYears := 5, customGrowthRate := some 0 }).intrinsicValue
      = 10 := by
    rw [calculateDCF, if_neg hpos]
    norm_num [startingFcf, negShareFin, cashFlowFcf, dcfShares, dcfNetDebt,
      min_def, max_def, pvOfFcfSum, projFcf_zero_growth,
      Finset.sum_range_succ]
  have h2 : (calculateDCF negShareFin sampleQuote
      { discountRate := 0.20, terminalGrowthRate := 0
        projectionYears := 5, customGrowthRate := some 0 }).intrinsicValue
      = 15 := by
    rw [calculateDCF, if_neg hpos]
    norm_num [startingFcf, negShareFin, cashFlowFcf, dcfShares, dcfNetDebt,
      min_def, max_def, pvOfFcfSum, projFcf_zero_growth,
      Finset.sum_range_succ]
  rw [h1, h2]
  norm_num

/-- Every compounding factor `1 + yearGrowthRate` is at least 0.9 when the
growth rate is ≥ −10% and the terminal growth is nonnegative. -/
theorem one_add_yearGrowthRate_ge (g tg : ℝ) (n k : ℕ) (hg : -0.10 ≤ g)
    (htg : 0 ≤ tg) (hkn : k ≤ n) :
    0.9 ≤ 1 + yearGrowthRate g tg n k := by
  rcases Nat.eq_zero_or_pos n with rfl | hn
  · interval_cases k
    simp [yearGrowthRate]
    linarith
  have hn0 : (0 : ℝ) < n := by exact_mod_cast hn
  have hx0 : 0 ≤ (k : ℝ) / n :=
    div_nonneg (Nat.cast_nonneg k) (Nat.cast_nonneg n)
  have hx1 : (k : ℝ) / n ≤ 1 :=
    div_le_one_of_le (Nat.cast_le.2 hkn) (Nat.cast_nonneg n)
  rw [yearGrowthRate]
  nlinarith [mul_nonneg (by linarith : (0:ℝ) ≤ g + 0.10)
      (by linarith : (0:ℝ) ≤ 1 - (k : ℝ) / n),
    mul_nonneg htg hx0]

/-- Projected free cash flows stay positive under the factor bound. -/
theorem projFcf_pos (F g tg : ℝ) (n : ℕ) (hF : 0 < F) (hg : -0.10 ≤ g)
    (htg : 0 ≤ tg) : ∀ y, y ≤ n → 0 < projFcf F g tg n y := by
  intro y
  induction y with
  | zero => intro _; simpa [projFcf] using hF
  | succ y ih =>
      intro hy
      rw [projFcf]
      have h1 := one_add_yearGrowthRate_ge g tg n (y + 1) hg htg hy
      have h2 := ih (Nat.le_of_succ_le hy)
      nlinarith

/-- Projected free cash flows are monotone in the growth rate. -/
theorem projFcf_mono_growth (F g₁ g₂ tg : ℝ) (n : ℕ) (hF : 0 < F)
    (hg₁ : -0.10 ≤ g₁) (hg : g₁ ≤ g₂) (htg : 0 ≤ tg) :
    ∀ y, y ≤ n → projFcf F g₁ tg n y ≤ projFcf F g₂ tg n y := by
  intro y
  induction y with
  | zero => intro _; simp [projFcf]
  | succ y ih =>
      intro hy
      rw [projFcf, projFcf]
      have hyn : y ≤ n := Nat.le_of_succ_le hy
      have hx0 : 0 ≤ ((y + 1 : ℕ) : ℝ) / n :=
        div_nonneg (Nat.cast_nonneg _) (Nat.cast_nonneg n)
      have hx1 : ((y + 1 : ℕ) : ℝ) / n ≤ 1 :=
        div_le_one_of_le (Nat.cast_le.2 hy) (Nat.cast_nonneg n)
      have hfac : 1 + yearGrowthRate g₁ tg n (y + 1) ≤
          1 + yearGrowthRate g₂ tg n (y + 1) := by
        rw [yearGrowthRate, yearGrowthRate]
        nlinarith [mul_nonneg (sub_nonneg.2 hg)
          (by linarith : (0:ℝ) ≤ 1 - ((y + 1 : ℕ) : ℝ) / n)]
      have hp₁ := projFcf_pos F g₁ tg n hF hg₁ htg y hyn
      have hlb := one_add_yearGrowthRate_ge g₁ tg n (y + 1) hg₁ htg hy
      have hp₂ := ih hyn
      nlinarith

/-- In the cap-binding region (`tg = d − 0.01`) each discounted compounding
factor with index `k ≤ n − 1` is non-increasing in the discount rate. -/
theorem ratio_step_binding (g d₁ d₂ : ℝ) (n k : ℕ) (hg₁ : -0.10 ≤ g)
    (hd₁ : 0.01 ≤ d₁) (h12 : d₁ ≤ d₂) (hk : k ≤ n - 1) (hn : 1 ≤ n)
    (hn20 : n ≤ 20) :
    (1 + yearGrowthRate g (d₂ - 0.01) n k) / (1 + d₂) ≤
      (1 + yearGrowthRate g (d₁ - 0.01) n k) / (1 + d₁) := by
  have hn0 : (0 : ℝ) < n := by exact_mod_cast hn
  have hd₁0 : (0 : ℝ) < 1 + d₁ := by linarith
  have hd₂0 : (0 : ℝ) < 1 + d₂ := by linarith
  have hkr : (k : ℝ) ≤ (n : ℝ) - 1 := by
    have : (k : ℝ) ≤ ((n - 1 : ℕ) : ℝ) := Nat.cast_le.2 hk
    rwa [Nat.cast_sub hn, Nat.cast_one] at this
  have hx0 : 0 ≤ (k : ℝ) / n :=
    div_nonneg (Nat.cast_nonneg k) (Nat.cast_nonneg n)
  have hx1 : (k : ℝ) / n ≤ 1 - 1 / n := by
    rw [div_le_iff hn0, sub_mul, one_mul, div_mul_cancel₀ _ (ne_of_gt hn0)]
    linarith
  have h1n : (1 : ℝ) / 20 ≤ 1 / n := by
    apply one_div_le_one_div_of_le hn0 ?_ |>.trans_eq rfl
    exact_mod_cast hn20
  have hx19 : (k : ℝ) / n ≤ 19 / 20 := by linarith
  rw [div_le_div_iff hd₂0 hd₁0, yearGrowthRate, yearGrowthRate]
  have hkey : 0 ≤ (1 + g) * (1 - (k : ℝ) / n) - 0.01 * ((k : ℝ) / n) := by
    nlinarith [mul_nonneg (by linarith : (0:ℝ) ≤ g + 0.10)
      (by linarith : (0:ℝ) ≤ 1 - (k : ℝ) / n)]
  nlinarith [mul_nonneg (sub_nonneg.2 h12) hkey]

/-- Rewriting a compounding factor in the binding region. -/
theorem one_add_yearGrowthRate_eq (g tg : ℝ) (n k : ℕ) :
    1 + yearGrowthRate g tg n k = 1 + g + (tg - g) * ((k : ℝ) / n) := by
  rw [yearGrowthRate]
  ring

/-- Damped step bound: under the bracket condition, a discounted compounding
factor decreases by at least the factor `1 − γ(d₂ − d₁)`. -/
theorem ratio_step_damped (g d₁ d₂ x γ : ℝ) (hd₁0 : (0:ℝ) < 1 + d₁)
    (hd₂0 : (0:ℝ) < 1 + d₂) (h12 : d₁ ≤ d₂)
    (hbracket : x * (1 + d₁) ≤
      (1 + g + (d₁ - 0.01 - g) * x) * (1 - γ * (1 + d₂))) :
    (1 + g + (d₂ - 0.01 - g) * x) / (1 + d₂) ≤
      (1 - γ * (d₂ - d₁)) * ((1 + g + (d₁ - 0.01 - g) * x) / (1 + d₁)) := by
  rw [mul_div_assoc', div_le_div_iff hd₂0 hd₁0]
  nlinarith [mul_nonneg (sub_nonneg.2 h12) (sub_nonneg.2 hbracket)]

/-- The damping factors `(1 − 0.6Δ)(1 − 0.4Δ)` beat the growth of the
terminal multiplier `1 + d − 0.01` on the binding region. -/
theorem damped_tail_bound (d₁ d₂ : ℝ) (hd₁ : 0.01 ≤ d₁) (h12 : d₁ ≤ d₂)
    (hd₂ : d₂ ≤ 0.11) :
    (1 - (3/5) * (d₂ - d₁)) * ((1 - (2/5) * (d₂ - d₁)) * (1 + d₂ - 0.01)) ≤
      1 + d₁ - 0.01 := by
  nlinarith [sq_nonneg (d₂ - d₁), mul_nonneg (sub_nonneg.2 h12)
    (sub_nonneg.2 h12), mul_nonneg (mul_nonneg (sub_nonneg.2 h12)
    (sub_nonneg.2 h12)) (sub_nonneg.2 h12)]

/-- Bracket condition for the first-year factor with damping 3/5. -/
theorem bracket_one (g d₁ d₂ : ℝ) (n : ℕ) (hg₁ : -0.10 ≤ g)
    (hd₁ : 0.01 ≤ d₁) (h12 : d₁ ≤ d₂) (hd₂ : d₂ ≤ 0.11) (hn : 5 ≤ n)
    (hn20 : n ≤ 20) :
    ((1 : ℕ) : ℝ) / n * (1 + d₁) ≤
      (1 + g + (d₁ - 0.01 - g) * (((1 : ℕ) : ℝ) / n)) *
        (1 - (3/5) * (1 + d₂)) := by
  have hn0 : (0 : ℝ) < n := by
    have : (0 : ℕ) < n := by omega
    exact_mod_cast this
  have hx1 : ((1 : ℕ) : ℝ) / n ≤ 1 / 5 := by
    rw [Nat.cast_one]
    apply div_le_div_of_nonneg_left (by norm_num) (by norm_num)
    exact_mod_cast hn
  have hx0 : 0 ≤ ((1 : ℕ) : ℝ) / n :=
    div_nonneg (Nat.cast_nonneg _) (Nat.cast_nonneg n)
  have ha : 0.9 ≤ 1 + g + (d₁ - 0.01 - g) * (((1 : ℕ) : ℝ) / n) := by
    have := one_add_yearGrowthRate_ge g (d₁ - 0.01) n 1 hg₁ (by linarith)
      (by omega)
    rwa [one_add_yearGrowthRate_eq] at this
  have hb : (0.334 : ℝ) ≤ 1 - (3/5) * (1 + d₂) := by linarith
  nlinarith [mul_nonneg (by linarith : (0:ℝ) ≤
      1 + g + (d₁ - 0.01 - g) * (((1 : ℕ) : ℝ) / n) - 0.9)
    (by linarith : (0:ℝ) ≤ 1 - (3/5) * (1 + d₂) - 0.334)]

/-- Bracket condition for the second-year factor with damping 2/5. -/
theorem bracket_two (g d₁ d₂ : ℝ) (n : ℕ) (hg₁ : -0.10 ≤ g)
    (hd₁ : 0.01 ≤ d₁) (h12 : d₁ ≤ d₂) (hd₂ : d₂ ≤ 0.11) (hn : 5 ≤ n)
    (hn20 : n ≤ 20) :
    ((2 : ℕ) : ℝ) / n * (1 + d₁) ≤
      (1 + g + (d₁ - 0.01 - g) * (((2 : ℕ) : ℝ) / n)) *
        (1 - (2/5) * (1 + d₂)) := by
  have hn0 : (0 : ℝ) < n := by
    have : (0 : ℕ) < n := by omega
    exact_mod_cast this
  have hx1 : ((2 : ℕ) : ℝ) / n ≤ 2 / 5 := by
    rw [Nat.cast_ofNat]
    apply div_le_div_of_nonneg_left (by norm_num) (by norm_num)
    exact_mod_cast hn
  have hx0 : 0 ≤ ((2 : ℕ) : ℝ) / n :=
    div_nonneg (Nat.cast_nonneg _) (Nat.cast_nonneg n)
  have ha : 0.9 ≤ 1 + g + (d₁ - 0.01 - g) * (((2 : ℕ) : ℝ) / n) := by
    have := one_add_yearGrowthRate_ge g (d₁ - 0.01) n 2 hg₁ (by linarith)
      (by omega)
    rwa [one_add_yearGrowthRate_eq] at this
  have hb : (0.5 : ℝ) ≤ 1 - (2/5) * (1 + d₂) := by linarith
  nlinarith [mul_nonneg (by linarith : (0:ℝ) ≤
      1 + g + (d₁ - 0.01 - g) * (((2 : ℕ) : ℝ) / n) - 0.9)
    (by linarith : (0:ℝ) ≤ 1 - (2/5) * (1 + d₂) - 0.5)]

/-- Recurrence for the discounted projected cash flow. -/
theorem discQuot_succ (F g tg d : ℝ) (n y : ℕ) :
    projFcf F g tg n (y + 1) / (1 + d) ^ (y + 1) =
      projFcf F g tg n y / (1 + d) ^ y *
        ((1 + yearGrowthRate g tg n (y + 1)) / (1 + d)) := by
  rw [projFcf, pow_succ, ← div_mul_div_comm]

/-- Discounted projected cash flows with `y ≤ n − 1` are non-increasing in
the discount rate in the cap-binding region. -/
theorem discQuot_anti_binding (F g d₁ d₂ : ℝ) (n : ℕ) (hF : 0 < F)
    (hg₁ : -0.10 ≤ g) (hd₁ : 0.01 ≤ d₁) (h12 : d₁ ≤ d₂) (hn : 1 ≤ n)
    (hn20 : n ≤ 20) :
    ∀ y, y ≤ n - 1 →
      projFcf F g (d₂ - 0.01) n y / (1 + d₂) ^ y ≤
        projFcf F g (d₁ - 0.01) n y / (1 + d₁) ^ y := by
  intro y
  induction y with
  | zero => intro _; simp [projFcf]
  | succ y ih =>
      intro hy
      rw [discQuot_succ, discQuot_succ]
      have hyn : y ≤ n - 1 := Nat.le_of_succ_le hy
      have hd₂0 : (0 : ℝ) < 1 + d₂ := by linarith
      have hd₁0 : (0 : ℝ) < 1 + d₁ := by linarith
      have hQ₁ : 0 ≤ projFcf F g (d₁ - 0.01) n y / (1 + d₁) ^ y :=
        le_of_lt (div_pos (projFcf_pos F g (d₁ - 0.01) n hF hg₁
          (by linarith) y (by omega)) (pow_pos hd₁0 y))
      have hr₂ : 0 ≤ (1 + yearGrowthRate g (d₂ - 0.01) n (y + 1)) / (1 + d₂) :=
        div_nonneg (by
          have := one_add_yearGrowthRate_ge g (d₂ - 0.01) n (y + 1) hg₁
            (by linarith) (by omega)
          linarith) (le_of_lt hd₂0)
      exact mul_le_mul (ih hyn)
        (ratio_step_binding g d₁ d₂ n (y + 1) hg₁ hd₁ h12 hy hn hn20)
        hr₂ hQ₁

/-- Discounted projected cash flows with `2 ≤ y ≤ n − 1` decrease at least
by the damping factor `(1 − 0.6Δ)(1 − 0.4Δ)` in the cap-binding region. -/
theorem discQuot_gamma (F g d₁ d₂ : ℝ) (n : ℕ) (hF : 0 < F)
    (hg₁ : -0.10 ≤ g) (hd₁ : 0.01 ≤ d₁) (h12 : d₁ ≤ d₂) (hd₂ : d₂ ≤ 0.11)
    (hn : 5 ≤ n) (hn20 : n ≤ 20) :
    ∀ y, 2 ≤ y → y ≤ n - 1 →
      projFcf F g (d₂ - 0.01) n y / (1 + d₂) ^ y ≤
        (1 - (3/5) * (d₂ - d₁)) * ((1 - (2/5) * (d₂ - d₁)) *
          (projFcf F g (d₁ - 0.01) n y / (1 + d₁) ^ y)) := by
  have hd₂0 : (0 : ℝ) < 1 + d₂ := by linarith
  have hd₁0 : (0 : ℝ) < 1 + d₁ := by linarith
  have hγ₁ : (0 : ℝ) ≤ 1 - (3/5) * (d₂ - d₁) := by linarith
  have hγ₂ : (0 : ℝ) ≤ 1 - (2/5) * (d₂ - d₁) := by linarith
  have hr₁le : (1 + yearGrowthRate g (d₂ - 0.01) n 1) / (1 + d₂) ≤
      (1 - (3/5) * (d₂ - d₁)) *
        ((1 + yearGrowthRate g (d₁ - 0.01) n 1) / (1 + d₁)) := by
    rw [one_add_yearGrowthRate_eq, one_add_yearGrowthRate_eq]
    have h := ratio_step_damped g d₁ d₂ (((1 : ℕ) : ℝ) / n) (3/5) hd₁0 hd₂0
      h12 (bracket_one g d₁ d₂ n hg₁ hd₁ h12 hd₂ hn hn20)
    calc (1 + g + (d₂ - 0.01 - g) * (((1 : ℕ) : ℝ) / n)) / (1 + d₂) ≤
        (1 - (3/5) * (d₂ - d₁)) *
          ((1 + g + (d₁ - 0.01 - g) * (((1 : ℕ) : ℝ) / n)) / (1 + d₁)) := h
      _ = (1 - (3/5) * (d₂ - d₁)) *
          ((1 + g + (d₁ - 0.01 - g) * (((1 : ℕ) : ℝ) / n)) / (1 + d₁)) := rfl
  have hr₂le : (1 + yearGrowthRate g (d₂ - 0.01) n 2) / (1 + d₂) ≤
      (1 - (2/5) * (d₂ - d₁)) *
        ((1 + yearGrowthRate g (d₁ - 0.01) n 2) / (1 + d₁)) := by
    rw [one_add_yearGrowthRate_eq, one_add_yearGrowthRate_eq]
    exact ratio_step_damped g d₁ d₂ (((2 : ℕ) : ℝ) / n) (2/5) hd₁0 hd₂0
      h12 (bracket_two g d₁ d₂ n hg₁ hd₁ h12 hd₂ hn hn20)
  have hr₁pos : 0 ≤ (1 + yearGrowthRate g (d₂ - 0.01) n 1) / (1 + d₂) :=
    div_nonneg (by
      have := one_add_yearGrowthRate_ge g (d₂ - 0.01) n 1 hg₁
        (by linarith) (by omega)
      linarith) (le_of_lt hd₂0)
  have hr₂pos : 0 ≤ (1 + yearGrowthRate g (d₂ - 0.01) n 2) / (1 + d₂) :=
    div_nonneg (by
      have := one_add_yearGrowthRate_ge g (d₂ - 0.01) n 2 hg₁
        (by linarith) (by omega)
      linarith) (le_of_lt hd₂0)
  have hQpos : ∀ y, y ≤ n →
      0 ≤ projFcf F g (d₁ - 0.01) n y / (1 + d₁) ^ y := fun y hy =>
    le_of_lt (div_pos (projFcf_pos F g (d₁ - 0.01) n hF hg₁
      (by linarith) y hy) (pow_pos hd₁0 y))
  intro y hy2
  induction y, hy2 using Nat.le_induction with
  | base =>
      intro _hyn
      have e₂ : ∀ d : ℝ, projFcf F g (d - 0.01) n 2 / (1 + d) ^ 2 =
          F / (1 + d) ^ 0 *
            ((1 + yearGrowthRate g (d - 0.01) n 1) / (1 + d)) *
            ((1 + yearGrowthRate g (d - 0.01) n 2) / (1 + d)) := by
        intro d
        rw [show (2 : ℕ) = 1 + 1 from rfl, discQuot_succ, discQuot_succ]
        norm_num [projFcf]
      rw [e₂, e₂]
      have hF0 : F / (1 + d₂) ^ 0 = F := by norm_num
      have hF1 : F / (1 + d₁) ^ 0 = F := by norm_num
      rw [hF0, hF1]
      have step1 : F * ((1 + yearGrowthRate g (d₂ - 0.01) n 1) / (1 + d₂)) ≤
          F * ((1 - (3/5) * (d₂ - d₁)) *
            ((1 + yearGrowthRate g (d₁ - 0.01) n 1) / (1 + d₁))) :=
        mul_le_mul_of_nonneg_left hr₁le (le_of_lt hF)
      have hr₁d₁pos : 0 ≤ (1 + yearGrowthRate g (d₁ - 0.01) n 1) / (1 + d₁) :=
        div_nonneg (by
          have := one_add_yearGrowthRate_ge g (d₁ - 0.01) n 1 hg₁
            (by linarith) (by omega)
          linarith) (le_of_lt hd₁0)
      have step2 : F * ((1 + yearGrowthRate g (d₂ - 0.01) n 1) / (1 + d₂)) *
          ((1 + yearGrowthRate g (d₂ - 0.01) n 2) / (1 + d₂)) ≤
          (F * ((1 - (3/5) * (d₂ - d₁)) *
            ((1 + yearGrowthRate g (d₁ - 0.01) n 1) / (1 + d₁)))) *
          ((1 - (2/5) * (d₂ - d₁)) *
            ((1 + yearGrowthRate g (d₁ - 0.01) n 2) / (1 + d₁))) := by
        apply mul_le_mul step1 hr₂le hr₂pos
        exact mul_nonneg (le_of_lt hF) (mul_nonneg hγ₁ hr₁d₁pos)
      calc F * ((1 + yearGrowthRate g (d₂ - 0.01) n 1) / (1 + d₂)) *
          ((1 + yearGrowthRate g (d₂ - 0.01) n 2) / (1 + d₂)) ≤
          (F * ((1 - (3/5) * (d₂ - d₁)) *
            ((1 + yearGrowthRate g (d₁ - 0.01) n 1) / (1 + d₁)))) *
          ((1 - (2/5) * (d₂ - d₁)) *
            ((1 + yearGrowthRate g (d₁ - 0.01) n 2) / (1 + d₁))) := step2
        _ = (1 - (3/5) * (d₂ - d₁)) * ((1 - (2/5) * (d₂ - d₁)) *
            (F * ((1 + yearGrowthRate g (d₁ - 0.01) n 1) / (1 + d₁)) *
              ((1 + yearGrowthRate g (d₁ - 0.01) n 2) / (1 + d₁)))) := by
          ring
  | succ y hy2' ih =>
      intro hyn'
      have hyn : y ≤ n - 1 := Nat.le_of_succ_le hyn'
      rw [discQuot_succ, discQuot_succ]
      have hrpos : 0 ≤ (1 + yearGrowthRate g (d₂ - 0.01) n (y + 1)) / (1 + d₂) :=
        div_nonneg (by
          have := one_add_yearGrowthRate_ge g (d₂ - 0.01) n (y + 1) hg₁
            (by linarith) (by omega)
          linarith) (le_of_lt hd₂0)
      have hstep := ratio_step_binding g d₁ d₂ n (y + 1) hg₁ hd₁ h12 hyn'
        (by omega) hn20
      have hchain : projFcf F g (d₂ - 0.01) n y / (1 + d₂) ^ y *
          ((1 + yearGrowthRate g (d₂ - 0.01) n (y + 1)) / (1 + d₂)) ≤
          ((1 - (3/5) * (d₂ - d₁)) * ((1 - (2/5) * (d₂ - d₁)) *
            (projFcf F g (d₁ - 0.01) n y / (1 + d₁) ^ y))) *
          ((1 + yearGrowthRate g (d₁ - 0.01) n (y + 1)) / (1 + d₁)) := by
        apply mul_le_mul (ih hyn) hstep hrpos
        exact mul_nonneg hγ₁ (mul_nonneg hγ₂ (hQpos y (by omega)))
      calc projFcf F g (d₂ - 0.01) n y / (1 + d₂) ^ y *
          ((1 + yearGrowthRate g (d₂ - 0.01) n (y + 1)) / (1 + d₂)) ≤
          ((1 - (3/5) * (d₂ - d₁)) * ((1 - (2/5) * (d₂ - d₁)) *
            (projFcf F g (d₁ - 0.01) n y / (1 + d₁) ^ y))) *
          ((1 + yearGrowthRate g (d₁ - 0.01) n (y + 1)) / (1 + d₁)) := hchain
        _ = (1 - (3/5) * (d₂ - d₁)) * ((1 - (2/5) * (d₂ - d₁)) *
            (projFcf F g (d₁ - 0.01) n y / (1 + d₁) ^ y *
              ((1 + yearGrowthRate g (d₁ - 0.01) n (y + 1)) / (1 + d₁)))) := by
          ring

/-- In the binding region the last projected year and the terminal value
combine into a single tail term: the `(1 + tg)/0.01` multiplier absorbs the
final-year factor, leaving the discounted year-`(n−1)` cash flow times
`(1 + d − 0.01)/0.01`. -/
theorem ev_binding_split (F g d : ℝ) (m : ℕ) (hd : 0.01 ≤ d) :
    pvOfFcfSum F g (d - 0.01) d (m + 1) +
      projFcf F g (d - 0.01) (m + 1) (m + 1) * (1 + (d - 0.01)) /
        (d - (d - 0.01)) / (1 + d) ^ (m + 1) =
    (∑ y ∈ Finset.range m,
        projFcf F g (d - 0.01) (m + 1) (y + 1) / (1 + d) ^ (y + 1)) +
      projFcf F g (d - 0.01) (m + 1) m / (1 + d) ^ m *
        ((1 + (d - 0.01)) / 0.01) := by
  have hd0 : (1 : ℝ) + d ≠ 0 := by linarith
  have hm1 : ((m + 1 : ℕ) : ℝ) ≠ 0 := by positivity
  have hlast : projFcf F g (d - 0.01) (m + 1) (m + 1) =
      projFcf F g (d - 0.01) (m + 1) m * (1 + (d - 0.01)) := by
    rw [projFcf, yearGrowthRate, div_self hm1]
    ring
  rw [pvOfFcfSum, Finset.sum_range_succ, hlast]
  have hdd : d - (d - 0.01) = (0.01 : ℝ) := by ring
  rw [hdd, pow_succ]
  field_simp
  ring

/-- Monotonicity of the enterprise-value expression in the discount rate
when the terminal-growth cap is not binding (`tg ≤ d₁ − 0.01` fixed). -/
theorem ev_anti_nb (F g tg d₁ d₂ : ℝ) (n : ℕ) (hF : 0 < F)
    (hg₁ : -0.10 ≤ g) (htg0 : 0 ≤ tg) (htg1 : tg ≤ d₁ - 0.01)
    (h12 : d₁ ≤ d₂) :
    pvOfFcfSum F g tg d₂ n +
      projFcf F g tg n n * (1 + tg) / (d₂ - tg) / (1 + d₂) ^ n ≤
    pvOfFcfSum F g tg d₁ n +
      projFcf F g tg n n * (1 + tg) / (d₁ - tg) / (1 + d₁) ^ n := by
  have hd₁ : (0.01 : ℝ) ≤ d₁ := by linarith
  have hd₁0 : (0 : ℝ) < 1 + d₁ := by linarith
  have hd₂0 : (0 : ℝ) < 1 + d₂ := by linarith
  apply add_le_add
  · rw [pvOfFcfSum, pvOfFcfSum]
    apply Finset.sum_le_sum
    intro y hy
    have hyn : y + 1 ≤ n := Finset.mem_range.1 hy
    exact div_le_div_of_nonneg_left
      (le_of_lt (projFcf_pos F g tg n hF hg₁ htg0 (y + 1) hyn))
      (pow_pos hd₁0 (y + 1))
      (pow_le_pow_left (by linarith) (by linarith) (y + 1))
  · rw [div_div, div_div]
    apply div_le_div_of_nonneg_left
    · exact mul_nonneg
        (le_of_lt (projFcf_pos F g tg n hF hg₁ htg0 n le_rfl))
        (by linarith)
    · exact mul_pos (by linarith) (pow_pos hd₁0 n)
    · exact mul_le_mul (by linarith) (pow_le_pow_left (by linarith)
        (by linarith) n) (le_of_lt (pow_pos hd₁0 n)) (by linarith)

/-- Monotonicity of the enterprise-value expression in the discount rate
when the terminal-growth cap binds (`tg = d − 0.01`) on both sides. -/
theorem ev_anti_binding (F g d₁ d₂ : ℝ) (n : ℕ) (hF : 0 < F)
    (hg₁ : -0.10 ≤ g) (hd₁ : 0.01 ≤ d₁) (h12 : d₁ ≤ d₂) (hd₂ : d₂ ≤ 0.11)
    (hn : 5 ≤ n) (hn20 : n ≤ 20) :
    pvOfFcfSum F g (d₂ - 0.01) d₂ n +
      projFcf F g (d₂ - 0.01) n n * (1 + (d₂ - 0.01)) /
        (d₂ - (d₂ - 0.01)) / (1 + d₂) ^ n ≤
    pvOfFcfSum F g (d₁ - 0.01) d₁ n +
      projFcf F g (d₁ - 0.01) n n * (1 + (d₁ - 0.01)) /
        (d₁ - (d₁ - 0.01)) / (1 + d₁) ^ n := by
  obtain ⟨m, rfl⟩ : ∃ m, n = m + 1 := ⟨n - 1, by omega⟩
  have hd₁0 : (0 : ℝ) < 1 + d₁ := by linarith
  have hm : m = (m + 1) - 1 := by omega
  rw [ev_binding_split F g d₂ m (by linarith), ev_binding_split F g d₁ m hd₁]
  apply add_le_add
  · apply Finset.sum_le_sum
    intro y hy
    have hyn : y + 1 ≤ (m + 1) - 1 := by
      have := Finset.mem_range.1 hy
      omega
    exact discQuot_anti_binding F g d₁ d₂ (m + 1) hF hg₁ hd₁ h12
      (by omega) hn20 (y + 1) hyn
  · have hγ := discQuot_gamma F g d₁ d₂ (m + 1) hF hg₁ hd₁ h12 hd₂ hn hn20
      m (by omega) (by omega)
    have hQ₁pos : 0 ≤ projFcf F g (d₁ - 0.01) (m + 1) m / (1 + d₁) ^ m :=
      le_of_lt (div_pos (projFcf_pos F g (d₁ - 0.01) (m + 1) hF hg₁
        (by linarith) m (by omega)) (pow_pos hd₁0 m))
    have htail := damped_tail_bound d₁ d₂ hd₁ h12 hd₂
    have hmul1 : projFcf F g (d₂ - 0.01) (m + 1) m / (1 + d₂) ^ m *
        ((1 + (d₂ - 0.01)) / 0.01) ≤
        (1 - (3/5) * (d₂ - d₁)) * ((1 - (2/5) * (d₂ - d₁)) *
          (projFcf F g (d₁ - 0.01) (m + 1) m / (1 + d₁) ^ m)) *
        ((1 + (d₂ - 0.01)) / 0.01) := by
      apply mul_le_mul_of_nonneg_right hγ
      apply div_nonneg (by linarith) (by norm_num)
    have hmul2 : (1 - (3/5) * (d₂ - d₁)) * ((1 - (2/5) * (d₂ - d₁)) *
          (projFcf F g (d₁ - 0.01) (m + 1) m / (1 + d₁) ^ m)) *
        ((1 + (d₂ - 0.01)) / 0.01) ≤
        projFcf F g (d₁ - 0.01) (m + 1) m / (1 + d₁) ^ m *
          ((1 + (d₁ - 0.01)) / 0.01) := by
      have hkey : (1 - (3/5) * (d₂ - d₁)) * ((1 - (2/5) * (d₂ - d₁)) *
          (1 + d₂ - 0.01)) ≤ 1 + d₁ - 0.01 := htail
      calc (1 - (3/5) * (d₂ - d₁)) * ((1 - (2/5) * (d₂ - d₁)) *
            (projFcf F g (d₁ - 0.01) (m + 1) m / (1 + d₁) ^ m)) *
          ((1 + (d₂ - 0.01)) / 0.01)
          = (projFcf F g (d₁ - 0.01) (m + 1) m / (1 + d₁) ^ m) *
            ((1 - (3/5) * (d₂ - d₁)) * ((1 - (2/5) * (d₂ - d₁)) *
              (1 + d₂ - 0.01)) / 0.01) := by ring
        _ ≤ (projFcf F g (d₁ - 0.01) (m + 1) m / (1 + d₁) ^ m) *
            ((1 + d₁ - 0.01) / 0.01) := by
            apply mul_le_mul_of_nonneg_left _ hQ₁pos
            exact (div_le_div_right (by norm_num : (0:ℝ) < 0.01)).2 hkey
        _ = projFcf F g (d₁ - 0.01) (m + 1) m / (1 + d₁) ^ m *
            ((1 + (d₁ - 0.01)) / 0.01) := by ring
    exact le_trans hmul1 hmul2

/-- Monotonicity of the enterprise-value expression in the discount rate,
with the terminal growth capped at `min ptg (d − 0.01)` as in the source:
the interval is split at `ptg + 0.01` into the cap-binding and non-binding
regions. -/
theorem ev_anti (F g ptg d₁ d₂ : ℝ) (n : ℕ) (hF : 0 < F)
    (hg₁ : -0.10 ≤ g) (hp0 : 0 ≤ ptg) (hp1 : ptg ≤ 0.10)
    (hd₁ : 0.01 ≤ d₁) (h12 : d₁ ≤ d₂) (hn : 5 ≤ n) (hn20 : n ≤ 20) :
    pvOfFcfSum F g (min ptg (d₂ - 0.01)) d₂ n +
      projFcf F g (min ptg (d₂ - 0.01)) n n * (1 + min ptg (d₂ - 0.01)) /
        (d₂ - min ptg (d₂ - 0.01)) / (1 + d₂) ^ n ≤
    pvOfFcfSum F g (min ptg (d₁ - 0.01)) d₁ n +
      projFcf F g (min ptg (d₁ - 0.01)) n n * (1 + min ptg (d₁ - 0.01)) /
        (d₁ - min ptg (d₁ - 0.01)) / (1 + d₁) ^ n := by
  rcases le_or_lt ptg (d₁ - 0.01) with hb | hb
  · rw [min_eq_left hb, min_eq_left (hb.trans (by linarith))]
    exact ev_anti_nb F g ptg d₁ d₂ n hF hg₁ hp0 hb h12
  · rcases le_or_lt (d₂ - 0.01) ptg with hc | hc
    · rw [min_eq_right hc, min_eq_right (le_trans (by linarith) hc)]
      exact ev_anti_binding F g d₁ d₂ n hF hg₁ hd₁ h12 (by linarith) hn hn20
    · have hm₁ : d₁ ≤ ptg + 0.01 := by linarith
      have hm₂ : ptg + 0.01 ≤ d₂ := by linarith
      have h₂ : min ptg (d₂ - 0.01) = ptg := min_eq_left (by linarith)
      have h₁ : min ptg (d₁ - 0.01) = d₁ - 0.01 :=
        min_eq_right (by linarith)
      rw [h₂, h₁]
      have step1 := ev_anti_nb F g ptg (ptg + 0.01) d₂ n hF hg₁ hp0
        (by linarith) hm₂
      have step2 := ev_anti_binding F g d₁ (ptg + 0.01) n hF hg₁ hd₁ hm₁
        (by linarith) hn hn20
      have hEVmid : pvOfFcfSum F g ptg (ptg + 0.01) n +
          projFcf F g ptg n n * (1 + ptg) / ((ptg + 0.01) - ptg) /
            (1 + (ptg + 0.01)) ^ n =
          pvOfFcfSum F g ((ptg + 0.01) - 0.01) (ptg + 0.01) n +
          projFcf F g ((ptg + 0.01) - 0.01) n n *
            (1 + ((ptg + 0.01) - 0.01)) /
            ((ptg + 0.01) - ((ptg + 0.01) - 0.01)) /
            (1 + (ptg + 0.01)) ^ n := by
        rw [show (ptg + 0.01 - 0.01 : ℝ) = ptg from by ring]
      exact le_trans step1 (le_trans (le_of_eq hEVmid) step2)

/-- Monotonicity of the enterprise-value expression in the (clamped) growth
rate, all other quantities fixed. -/
theorem ev_mono_growth (F g₁ g₂ tg d : ℝ) (n : ℕ) (hF : 0 < F)
    (hg₁ : -0.10 ≤ g₁) (hg : g₁ ≤ g₂) (htg0 : 0 ≤ tg)
    (htgd : tg ≤ d - 0.01) :
    pvOfFcfSum F g₁ tg d n +
      projFcf F g₁ tg n n * (1 + tg) / (d - tg) / (1 + d) ^ n ≤
    pvOfFcfSum F g₂ tg d n +
      projFcf F g₂ tg n n * (1 + tg) / (d - tg) / (1 + d) ^ n := by
  have hd0 : (0 : ℝ) < 1 + d := by linarith
  have hdt : (0 : ℝ) < d - tg := by linarith
  apply add_le_add
  · rw [pvOfFcfSum, pvOfFcfSum]
    apply Finset.sum_le_sum
    intro y hy
    exact (div_le_div_right (pow_pos hd0 (y + 1))).2
      (projFcf_mono_growth F g₁ g₂ tg n hF hg₁ hg htg0 (y + 1)
        (Finset.mem_range.1 hy))
  · apply (div_le_div_right (pow_pos hd0 n)).2
    apply (div_le_div_right hdt).2
    exact mul_le_mul_of_nonneg_right
      (projFcf_mono_growth F g₁ g₂ tg n hF hg₁ hg htg0 n le_rfl)
      (by linarith)

/-- C2 (amended): provided the per-share divisor is positive (the claim
fails for data with negative `sharesOutstanding`, see the counterexample),
`intrinsicValue` is monotonically non-increasing in the discount rate and
monotonically non-decreasing in the supplied custom growth rate, for
discount rates in [0.01, 0.30], terminal growth in [0, 0.10] and projection
years in [5, 20], all other inputs held fixed. -/
theorem claim2_dcf_monotonicity (f : Financials) (q : StockQuote)
    (dr₁ dr₂ ptg : ℝ) (n : ℕ) (cg : Option ℝ) (hs : 0 < dcfShares f)
    (hd₁ : 0.01 ≤ dr₁) (h12 : dr₁ ≤ dr₂) (hd₂ : dr₂ ≤ 0.30)
    (hp0 : 0 ≤ ptg) (hp1 : ptg ≤ 0.10) (hn : 5 ≤ n) (hn20 : n ≤ 20) :
    (calculateDCF f q
        { discountRate := dr₂, terminalGrowthRate := ptg
          projectionYears := n, customGrowthRate := cg }).intrinsicValue ≤
      (calculateDCF f q
        { discountRate := dr₁, terminalGrowthRate := ptg
          projectionYears := n, customGrowthRate := cg }).intrinsicValue ∧
    ∀ g₁ g₂ : ℝ, g₁ ≤ g₂ →
      (calculateDCF f q
        { discountRate := dr₁, terminalGrowthRate := ptg
          projectionYears := n,
          customGrowthRate := some g₁ }).intrinsicValue ≤
      (calculateDCF f q
        { discountRate := dr₁, terminalGrowthRate := ptg
          projectionYears := n,
          customGrowthRate := some g₂ }).intrinsicValue := by
  rcases le_or_lt (startingFcf f) 0 with hfcf | hfcf
  · constructor
    · rw [calculateDCF, if_pos hfcf, calculateDCF, if_pos hfcf]
      simp [createNegativeFcfResult]
    · intro g₁ g₂ _
      rw [calculateDCF, if_pos hfcf, calculateDCF, if_pos hfcf]
      simp [createNegativeFcfResult]
  · have hFpos : ¬ startingFcf f ≤ 0 := not_le.2 hfcf
    constructor
    · rw [calculateDCF, if_neg hFpos, calculateDCF, if_neg hFpos]
      dsimp only
      apply max_le_max le_rfl
      apply (div_le_div_right hs).2
      apply sub_le_sub_right
      exact ev_anti (startingFcf f)
        (max (-0.10) (min ((cg.getD (estimateGrowthRate f))) 0.25))
        ptg dr₁ dr₂ n hfcf (le_max_left _ _) hp0 hp1 hd₁ h12 hn hn20
    · intro g₁ g₂ hg
      rw [calculateDCF, if_neg hFpos, calculateDCF, if_neg hFpos]
      dsimp only
      apply max_le_max le_rfl
      apply (div_le_div_right hs).2
      apply sub_le_sub_right
      have hclamp : max (-0.10) (min g₁ 0.25) ≤ max (-0.10) (min g₂ 0.25) :=
        max_le_max le_rfl (min_le_min hg le_rfl)
      exact ev_mono_growth (startingFcf f)
        (max (-0.10) (min g₁ 0.25)) (max (-0.10) (min g₂ 0.25))
        (min ptg (dr₁ - 0.01)) dr₁ n hfcf (le_max_left _ _) hclamp
        (le_min hp0 (by linarith)) (min_le_right _ _)

/-- C2 witness: concrete in-range parameters; with no statements at all the
share divisor defaults to 1 and both branches of the amended claim apply. -/
theorem claim2_witness :
    0 < dcfShares emptyFinancials ∧ (0.01 : ℝ) ≤ 0.10 ∧ (0.10 : ℝ) ≤ 0.20 ∧
    (0.20 : ℝ) ≤ 0.30 ∧ (0 : ℝ) ≤ 0.03 ∧ (0.03 : ℝ) ≤ 0.10 ∧
    5 ≤ 10 ∧ 10 ≤ 20 ∧
    (calculateDCF emptyFinancials sampleQuote
        { discountRate := 0.20, terminalGrowthRate := 0.03
          projectionYears := 10,
          customGrowthRate := some 0.05 }).intrinsicValue ≤
      (calculateDCF emptyFinancials sampleQuote
        { discountRate := 0.10, terminalGrowthRate := 0.03
          projectionYears := 10,
          customGrowthRate := some 0.05 }).intrinsicValue :=
  ⟨by simp [dcfShares, emptyFinancials], by norm_num, by norm_num,
   by norm_num, by norm_num, by norm_num, by norm_num, by norm_num,
   (claim2_dcf_monotonicity emptyFinancials sampleQuote 0.10 0.20 0.03 10
      (some 0.05) (by simp [dcfShares, emptyFinancials]) (by norm_num)
      (by norm_num) (by norm_num) (by norm_num) (by norm_num)
      (by norm_num) (by norm_num)).1⟩
